import Mathlib

/-!
# Verification of the gateway request-routing core

Shallow embedding of the gateway's routing and execution engine
(`src/handlers/...`): the error shaper, the header processor, the request
body constructor, the provider config builder, the target resolver with its
inherited-config merge and circuit-breaker filter, the four strategies, and
the after-request hook loop.

Conventions of the embedding:
* JS objects with string keys are association lists (`JMap`, `HMap`); JS
  `undefined` at a key is either key absence or an explicit `none` value
  (header maps store `Option String` values because JS assignment can store
  `undefined` under a key).
* JS exceptions are `Except GError`; `GError` records the error `name`
  (used by the `error.name === 'RouterError'` check), the message, and
  whether the value is a `GatewayError` instance.
* A `Response` is modelled with its status, header list, and the JSON value
  that the source passes to `JSON.stringify` when building the body.
* `Math.random()` draws and other external collaborators (leaf execution
  via `tryPost`, the conditional router, the circuit-breaker notify hook)
  are explicit oracle parameters, universally quantified in the theorems.
-/

/-- JSON values, the payload type of configs, hooks and response bodies. -/
inductive Json where
  | null : Json
  | bool (b : Bool) : Json
  | num (n : Int) : Json
  | str (s : String) : Json
  | arr (elems : List Json) : Json
  | obj (entries : List (String × Json)) : Json
deriving Repr

/-- A JS object with JSON values: association list keyed by strings. -/
abbrev JMap := List (String × Json)

/-- First-match lookup, as JS property access on an object. -/
def jGet (m : JMap) (k : String) : Option Json :=
  match m with
  | [] => none
  | (k', v) :: rest => if k' = k then some v else jGet rest k

/-- JS spread-union `{...a, ...b}`: keys of `a` not overridden keep their
value, keys of `b` win. Modelled so that lookups behave like the spread. -/
def jSpread (a b : JMap) : JMap :=
  a.filter (fun p => (jGet b p.1).isNone) ++ b

theorem jGet_append (a b : JMap) (k : String) :
    jGet (a ++ b) k = ((jGet a k).orElse (fun _ => jGet b k)) := by
  induction a with
  | nil => simp [jGet, Option.orElse]
  | cons p rest ih =>
    by_cases h : p.1 = k <;> simp [jGet, h, ih, Option.orElse]

theorem jGet_filter_isNone (a b : JMap) (k : String) (hb : (jGet b k).isNone) :
    jGet (a.filter (fun p => (jGet b p.1).isNone)) k = jGet a k := by
  induction a with
  | nil => simp [jGet]
  | cons p rest ih =>
    by_cases h : p.1 = k
    · subst h
      simp [List.filter, hb, jGet, ih]
    · by_cases h2 : (jGet b p.1).isNone <;>
        simp [List.filter, h2, jGet, h, ih]

theorem jGet_filter_of_ne (a b : JMap) (k : String)
    (hk : ¬ (jGet b k).isNone) :
    jGet (a.filter (fun p => (jGet b p.1).isNone)) k = none := by
  induction a with
  | nil => simp [jGet]
  | cons p rest ih =>
    by_cases h : p.1 = k
    · subst h
      simp [List.filter, hk, ih]
    · by_cases h2 : (jGet b p.1).isNone <;>
        simp [List.filter, h2, jGet, h, ih]

/-- Spread semantics: lookup in `{...a, ...b}` prefers `b`. -/
theorem jGet_jSpread (a b : JMap) (k : String) :
    jGet (jSpread a b) k = ((jGet b k).orElse (fun _ => jGet a k)) := by
  unfold jSpread
  rw [jGet_append]
  cases hb : jGet b k with
  | none =>
    rw [jGet_filter_isNone a b k (by simp [hb])]
    cases jGet a k <;> simp [Option.orElse]
  | some v =>
    rw [jGet_filter_of_ne a b k (by simp [hb])]
    simp [Option.orElse]

/-- JS truthiness of an optional string: present and non-empty. -/
def strTruthy (o : Option String) : Bool :=
  match o with
  | some s => s ≠ ""
  | none => false

/-- JS truthiness of an optional number: present and non-zero. -/
def numTruthy (o : Option Int) : Bool :=
  match o with
  | some n => n ≠ 0
  | none => false

/-! ## Header maps

Headers objects are `Record<string, string>` in the source but JS lets an
assignment store `undefined` under a key (`headers['Content-Type'] =
requestHeaders['content-type']` when the client sent none), so values are
`Option String`. Operations replace every entry carrying the key so that
the maps stay well-behaved on arbitrary lists. -/

abbrev HMap := List (String × Option String)

/-- Property read `m[k]`: first entry wins, an `undefined` value reads as
absent. -/
def hGet (m : HMap) (k : String) : Option String :=
  match m with
  | [] => none
  | (k', v) :: rest => if k' = k then v else hGet rest k

/-- `delete m[k]`. -/
def hDel (m : HMap) (k : String) : HMap :=
  m.filter (fun p => p.1 ≠ k)

/-- `k in m`: the object has the key. -/
def hasKey (m : HMap) (k : String) : Bool :=
  m.any (fun p => p.1 = k)

/-- `m[k] = v`: replace the value in place when the key exists, append
otherwise (JS objects keep the original insertion position on update). -/
def hSet (m : HMap) (k : String) (v : Option String) : HMap :=
  if hasKey m k then
    m.map (fun p => if p.1 = k then (k, v) else p)
  else
    m ++ [(k, v)]

/-! ## Constants (`src/handlers/constants.ts`) -/

def GATEWAY_EXCEPTION_HEADER : String := "x-portkey-gateway-exception"
def DEFAULT_CONTENT_TYPE : String := "application/json"
def NO_PROVIDER_SELECTED : String := "No provider selected, please check the weights"
def SOMETHING_WENT_WRONG : String := "Something went wrong"
def HOOKS_FAILED_MESSAGE : String :=
  "The guardrail checks defined in the config failed. You can find more information in the `hook_results` object."
def DEFAULT_WEIGHT : Int := 1
def MULTIPART_FORM_DATA : String := "multipart/form-data"
def GENERIC_AUDIO_PATTERN : String := "audio/"
def POWERED_BY_HEADER_PREF : String := "x-portkey-"
def HEADERS_TO_AVOID_CLOUDFLARE : List String := ["expect"]
def EXTRACTABLE_KEYS : List String :=
  ["deny", "on_fail", "on_success", "async", "id", "type", "guardrail_version_id"]
def DEFAULT_PLUGIN_PREF : String := "default."

/-! ## Errors and responses -/

/-- A thrown JS error: its `name` (checked by `error.name === 'RouterError'`),
its message, and whether it is a `GatewayError` instance (checked by
`error instanceof GatewayError`). -/
structure GError where
  name : String
  message : String
  isGatewayError : Bool
deriving Repr, DecidableEq

/-- Plain `new Error(msg)`. -/
def plainError (msg : String) : GError :=
  { name := "Error", message := msg, isGatewayError := false }

/-- `new RouterError(msg)`. -/
def routerError (msg : String) : GError :=
  { name := "RouterError", message := msg, isGatewayError := false }

/-- The `TypeError` raised by spreading `undefined` in an array literal. -/
def spreadUndefinedTypeError : GError :=
  { name := "TypeError", message := "undefined is not iterable",
    isGatewayError := false }

/-- A `Response`: status, headers, and the JSON value stringified into the
body by the source. -/
structure GResponse where
  status : Nat
  headers : HMap
  body : Json
deriving Repr

/-- `Response.ok`: status in the 2xx range. -/
def GResponse.ok (r : GResponse) : Bool :=
  200 ≤ r.status && r.status < 300

/-! ## Error shaper (`src/handlers/services/errorHandler.ts`) -/

/-- `RequestErrorHandler.handleTryPostError`. -/
def handleTryPostError (error : GError) : GResponse :=
  { status := 500,
    headers := [("content-type", some DEFAULT_CONTENT_TYPE),
                (GATEWAY_EXCEPTION_HEADER, some "true")],
    body := .obj [("status", .str "failure"),
                  ("message", .str (if error.isGatewayError then error.message
                                    else SOMETHING_WENT_WRONG))] }

/-- `RequestErrorHandler.handleTargetRecursionError`. -/
def handleTargetRecursionError (error : GError) : GResponse :=
  { status := 500,
    headers := [("content-type", some DEFAULT_CONTENT_TYPE),
                (GATEWAY_EXCEPTION_HEADER, some "true")],
    body := .obj [("status", .str "failure"),
                  ("message", .str (if error.isGatewayError then error.message
                                    else SOMETHING_WENT_WRONG))] }

/-- `RequestErrorHandler.handleRouterError`. -/
def handleRouterError (error : GError) : GResponse :=
  { status := 400,
    headers := [("content-type", some DEFAULT_CONTENT_TYPE)],
    body := .obj [("status", .str "failure"),
                  ("message", .str error.message)] }

/-- `RequestErrorHandler.createHooksFailureResponse`. -/
def createHooksFailureResponse (hookResults : Json) : GResponse :=
  { status := 446,
    headers := [("content-type", some DEFAULT_CONTENT_TYPE)],
    body := .obj [("error", .obj [("message", .str HOOKS_FAILED_MESSAGE),
                                  ("type", .str "hooks_failed"),
                                  ("param", .null),
                                  ("code", .null)]),
                  ("hook_results",
                   .obj [("before_request_hooks", hookResults),
                         ("after_request_hooks", .arr [])])] }

/-! ## Header processor (`src/handlers/services/headerProcessor.ts`)

The slice of `RequestContext` the header processor and the body constructor
read: HTTP method, endpoint identifier, the original client headers, the
forward list, and `env(c).CUSTOM_HEADERS_TO_IGNORE`. -/

structure ReqCtxHeaders where
  method : String
  endpoint : String
  requestHeaders : HMap
  customHeadersToIgnore : List String
deriving Repr

/-- `HeaderProcessor.getBaseHeaders`: `content-type: application/json`, plus
the client's `accept-encoding` when it sent one. -/
def getBaseHeaders (ctx : ReqCtxHeaders) : HMap :=
  [("content-type", some DEFAULT_CONTENT_TYPE)] ++
    (if strTruthy (hGet ctx.requestHeaders "accept-encoding") then
      [("accept-encoding", hGet ctx.requestHeaders "accept-encoding")]
    else [])

/-- `HeaderProcessor.processProviderHeaders`: copy all provider-mapped
headers, lowercasing keys (later assignments win on key collisions). -/
def processProviderHeaders (providerConfigMappedHeaders : HMap) : HMap :=
  providerConfigMappedHeaders.foldl
    (fun acc p => hSet acc p.1.toLower p.2) []

/-- `HeaderProcessor.processForwardHeaders`: for each forward-listed name
(case-insensitive), copy the client header value when present. -/
def processForwardHeaders (ctx : ReqCtxHeaders) (forwardHeaders : List String) :
    HMap :=
  forwardHeaders.foldl
    (fun acc header =>
      let lk := header.toLower
      if strTruthy (hGet ctx.requestHeaders lk) then
        hSet acc lk (hGet ctx.requestHeaders lk)
      else acc) []

/-- `HeaderProcessor.getHeadersToIgnore`:
`env.CUSTOM_HEADERS_TO_IGNORE ∪ {"expect"} ∪ {"content-length"}`. -/
def getHeadersToIgnore (ctx : ReqCtxHeaders) : List String :=
  ctx.customHeadersToIgnore ++ HEADERS_TO_AVOID_CLOUDFLARE ++ ["content-length"]

/-- `HeaderProcessor.processProxyHeaders`: only for `endpoint == "proxy"`,
copy every client header not in the ignore set and not `x-portkey-` prefixed. -/
def processProxyHeaders (ctx : ReqCtxHeaders) : HMap :=
  if ctx.endpoint ≠ "proxy" then []
  else
    ctx.requestHeaders.foldl
      (fun acc p =>
        if ¬ (getHeadersToIgnore ctx).contains p.1 ∧
           ¬ p.1.startsWith POWERED_BY_HEADER_PREF then
          hSet acc p.1 p.2
        else acc) []

/-- JS object spread `{...a, ...b}` on header maps: assign every entry of
`b` over `a` in order. -/
def hSpread (a b : HMap) : HMap :=
  b.foldl (fun acc p => hSet acc p.1 p.2) a

/-- `HeaderProcessor.postProcessHeaders`: if the method is GET or the
`content-type` starts with `multipart/form-data`, delete `content-type`;
on `uploadFile` additionally set capital-C `Content-Type` from the client's
`content-type` and copy `x-portkey-file-purpose` when present. -/
def postProcessHeaders (ctx : ReqCtxHeaders) (headers : HMap) : HMap :=
  let contentType := (hGet headers "content-type").map
    (fun s => (s.splitOn ";").headD "")
  let isGetMethod := ctx.method = "GET"
  let isMultipartFormData := contentType = some MULTIPART_FORM_DATA
  if isGetMethod ∨ isMultipartFormData then
    let h1 := hDel headers "content-type"
    if ctx.endpoint = "uploadFile" then
      let h2 := hSet h1 "Content-Type" (hGet ctx.requestHeaders "content-type")
      let filePurposeHeader := "x-portkey-file-purpose"
      if strTruthy (hGet ctx.requestHeaders filePurposeHeader) then
        hSet h2 filePurposeHeader (hGet ctx.requestHeaders filePurposeHeader)
      else h2
    else h1
  else headers

/-- `HeaderProcessor.buildFinalHeaders`: Base ◁ Provider ◁ Forward ◁ Proxy,
then post-processing. -/
def buildFinalHeaders (ctx : ReqCtxHeaders)
    (providerConfigMappedHeaders : HMap) (forwardHeaders : List String) :
    HMap :=
  let headers :=
    hSpread
      (hSpread
        (hSpread (getBaseHeaders ctx)
          (processProviderHeaders providerConfigMappedHeaders))
        (processForwardHeaders ctx forwardHeaders))
      (processProxyHeaders ctx)
  postProcessHeaders ctx headers

/-! ## Body shape decision and request body
(`HeaderProcessor.shouldProcessRequestBody`, `constructRequestBody`,
`constructRequest` in `src/handlers/handlerUtils.ts`) -/

/-- The runtime kind of a request body value. -/
inductive BodyVal where
  | formData : BodyVal
  | stream : BodyVal
  | arrayBuffer : BodyVal
  | jsonParams (j : Json) : BodyVal
deriving Repr

/-- `instanceof ReadableStream`. -/
def BodyVal.isStream : BodyVal → Bool
  | .stream => true
  | _ => false

/-- The slice of `RequestContext` the body constructor reads. -/
structure ReqCtxBody where
  headerCtx : ReqCtxHeaders
  requestBody : BodyVal
  transformedRequestBody : BodyVal
  forwardHeaders : List String
deriving Repr

structure BodyShapeDecision where
  isMultiPartRequest : Bool
  isProxyAudio : Bool
  shouldProcessAsJson : Bool
deriving Repr, DecidableEq

/-- `HeaderProcessor.shouldProcessRequestBody`. `HEADER_KEYS.CONTENT_TYPE`
lives in `globals.ts` (not among the sources); modelled from the spec as the
`content-type` header name. -/
def shouldProcessRequestBody (ctx : ReqCtxBody) (providerHeaders : HMap) :
    BodyShapeDecision :=
  let headerContentType := hGet providerHeaders "content-type"
  let requestContentType := hGet ctx.headerCtx.requestHeaders "content-type"
  let isMultiPartRequest :=
    headerContentType = some MULTIPART_FORM_DATA ∨
      (ctx.headerCtx.endpoint = "proxy" ∧
        requestContentType = some MULTIPART_FORM_DATA)
  let isProxyAudio :=
    ctx.headerCtx.endpoint = "proxy" ∧
      ((requestContentType.map (·.startsWith GENERIC_AUDIO_PATTERN)).getD false)
  let shouldProcessAsJson :=
    ¬ isMultiPartRequest ∧ ¬ isProxyAudio ∧ strTruthy requestContentType
  { isMultiPartRequest := isMultiPartRequest,
    isProxyAudio := isProxyAudio,
    shouldProcessAsJson := shouldProcessAsJson }

/-- The value handed to fetch as the body: either a raw body value passed
through, or the `JSON.stringify` of the transformed params (represented by
the JSON value being stringified). -/
inductive FetchBody where
  | raw (v : BodyVal) : FetchBody
  | stringified (j : Json) : FetchBody
deriving Repr

/-- `constructRequestBody` (`handlerUtils.ts`): pick the body shape, then
null it out for GET and DELETE. -/
def constructRequestBody (ctx : ReqCtxBody) (providerHeaders : HMap) :
    Option FetchBody :=
  let d := shouldProcessRequestBody ctx providerHeaders
  let reqBody := ctx.transformedRequestBody
  let body : Option FetchBody :=
    if d.isMultiPartRequest then some (.raw reqBody)
    else if ctx.requestBody.isStream then some (.raw ctx.requestBody)
    else if d.isProxyAudio then some (.raw reqBody)
    else if d.shouldProcessAsJson then
      some (.stringified (match reqBody with
        | .jsonParams j => j
        | _ => .null))
    else none
  if ctx.headerCtx.method = "GET" ∨ ctx.headerCtx.method = "DELETE" then
    none
  else body

/-- The fetch options object assembled by `constructRequest`. -/
structure FetchOptions where
  method : String
  headers : HMap
  duplex : Option String
  body : Option FetchBody
deriving Repr

/-- `constructRequest` (`handlerUtils.ts`): provider-mapped headers come
from the provider adapter (an oracle input here); the body is attached only
when truthy. -/
def constructRequest (ctx : ReqCtxBody) (providerMappedHeaders : HMap) :
    FetchOptions :=
  let headers := buildFinalHeaders ctx.headerCtx providerMappedHeaders
    ctx.forwardHeaders
  let body := constructRequestBody ctx providerMappedHeaders
  { method := ctx.headerCtx.method,
    headers := headers,
    duplex := if ctx.headerCtx.endpoint = "uploadFile" then some "half"
              else none,
    body := body }


/-! ## Association-list lemmas used for header post-processing -/

theorem hasKey_cons (p : String × Option String) (m : HMap) (k : String) :
    hasKey (p :: m) k = (decide (p.1 = k) || hasKey m k) := by
  simp [hasKey]

theorem hGet_eq_none_of_not_hasKey {m : HMap} {k : String}
    (h : hasKey m k = false) : hGet m k = none := by
  induction m with
  | nil => rfl
  | cons p rest ih =>
    rw [hasKey_cons] at h
    rcases Bool.or_eq_false_iff.mp h with ⟨h1, h2⟩
    rw [hGet, if_neg (by simpa using h1)]
    exact ih h2

theorem hasKey_hDel_self (m : HMap) (k : String) :
    hasKey (hDel m k) k = false := by
  rw [Bool.eq_false_iff]
  intro hcontra
  rw [hasKey, List.any_eq_true] at hcontra
  obtain ⟨p, hp, hpk⟩ := hcontra
  rw [hDel, List.mem_filter] at hp
  have := hp.2
  simp at this hpk
  exact this hpk

theorem hDel_of_not_hasKey {m : HMap} {k : String}
    (h : hasKey m k = false) : hDel m k = m := by
  apply List.filter_eq_self.mpr
  intro p hp
  have hne : ¬ (p.1 = k) := by
    intro hc
    have htrue : hasKey m k = true := by
      rw [hasKey, List.any_eq_true]
      exact ⟨p, hp, by simp [hc]⟩
    rw [htrue] at h
    exact Bool.true_eq_false.mp h
  simp [hne]

theorem hasKey_hSet_self (m : HMap) (k : String) (v : Option String) :
    hasKey (hSet m k v) k = true := by
  rw [hSet]
  by_cases hk : hasKey m k = true
  · rw [if_pos hk]
    rw [hasKey, List.any_eq_true] at hk ⊢
    obtain ⟨p, hp, hpk⟩ := hk
    refine ⟨(k, v), List.mem_map.mpr ⟨p, hp, ?_⟩, by simp⟩
    simp at hpk
    simp [hpk]
  · rw [if_neg hk]
    rw [hasKey, List.any_eq_true]
    exact ⟨(k, v), by simp⟩

theorem hasKey_hSet_other {m : HMap} {k k' : String} (v : Option String)
    (hne : k' ≠ k) : hasKey (hSet m k' v) k = hasKey m k := by
  rw [hSet]
  by_cases hk : hasKey m k' = true
  · rw [if_pos hk]
    clear hk
    induction m with
    | nil => rfl
    | cons p rest ih =>
      rw [List.map_cons, hasKey_cons, hasKey_cons, ih]
      congr 1
      by_cases hpk : p.1 = k'
      · rw [if_pos hpk]
        simp [hne, hpk]
      · rw [if_neg hpk]
  · rw [if_neg hk]
    rw [hasKey, hasKey, List.any_append]
    have : hasKey [(k', v)] k = false := by
      simp [hasKey, hne]
    rw [hasKey] at this
    rw [this, Bool.or_false]

/-- Every entry of `m` carrying key `k` holds exactly the value `v`. -/
def allKeyVal (m : HMap) (k : String) (v : Option String) : Prop :=
  ∀ p ∈ m, p.1 = k → p = (k, v)

theorem allKeyVal_hSet_self (m : HMap) (k : String) (v : Option String) :
    allKeyVal (hSet m k v) k v := by
  rw [hSet]
  by_cases hk : hasKey m k = true
  · rw [if_pos hk]
    intro p hp hpk
    rcases List.mem_map.mp hp with ⟨q, _, hq⟩
    by_cases hqk : q.1 = k
    · rw [if_pos hqk] at hq
      exact hq.symm
    · rw [if_neg hqk] at hq
      rw [← hq] at hpk
      exact absurd hpk hqk
  · rw [if_neg hk]
    intro p hp hpk
    rcases List.mem_append.mp hp with h | h
    · exfalso
      apply hk
      rw [hasKey, List.any_eq_true]
      exact ⟨p, h, by simp [hpk]⟩
    · simpa using h

theorem allKeyVal_hSet_other {m : HMap} {k k' : String}
    {v w : Option String} (hne : k' ≠ k) (hall : allKeyVal m k v) :
    allKeyVal (hSet m k' w) k v := by
  rw [hSet]
  by_cases hk : hasKey m k' = true
  · rw [if_pos hk]
    intro p hp hpk
    rcases List.mem_map.mp hp with ⟨q, hqm, hq⟩
    by_cases hqk : q.1 = k'
    · rw [if_pos hqk] at hq
      rw [← hq] at hpk
      exact absurd hpk hne
    · rw [if_neg hqk] at hq
      rw [← hq]
      exact hall q hqm (by rw [← hq] at hpk; exact hpk)
  · rw [if_neg hk]
    intro p hp hpk
    rcases List.mem_append.mp hp with h | h
    · exact hall p h hpk
    · have hp' : p = (k', w) := by simpa using h
      rw [hp'] at hpk
      exact absurd hpk hne

theorem hSet_of_allKeyVal {m : HMap} {k : String} {v : Option String}
    (hk : hasKey m k = true) (hall : allKeyVal m k v) : hSet m k v = m := by
  rw [hSet, if_pos hk]
  conv_rhs => rw [← List.map_id m]
  apply List.map_congr_left
  intro p hp
  by_cases hpk : p.1 = k
  · rw [if_pos hpk, id]
    exact (hall p hp hpk).symm
  · rw [if_neg hpk, id]

/-- Unfolding equation for `postProcessHeaders`. -/
theorem postProcessHeaders_eq (ctx : ReqCtxHeaders) (headers : HMap) :
    postProcessHeaders ctx headers =
      if ctx.method = "GET" ∨
          (hGet headers "content-type").map
            (fun s => (s.splitOn ";").headD "") = some MULTIPART_FORM_DATA then
        if ctx.endpoint = "uploadFile" then
          let h2 := hSet (hDel headers "content-type") "Content-Type"
            (hGet ctx.requestHeaders "content-type")
          if strTruthy (hGet ctx.requestHeaders "x-portkey-file-purpose") then
            hSet h2 "x-portkey-file-purpose"
              (hGet ctx.requestHeaders "x-portkey-file-purpose")
          else h2
        else hDel headers "content-type"
      else headers := rfl

/-- **C8.** Header post-processing is idempotent: for every header map,
request method, endpoint and original client headers, applying
`postProcessHeaders` twice yields the same map as applying it once. -/
theorem postProcessHeaders_idempotent (ctx : ReqCtxHeaders) (h : HMap) :
    postProcessHeaders ctx (postProcessHeaders ctx h) =
      postProcessHeaders ctx h := by
  rw [postProcessHeaders_eq ctx h]
  by_cases hcond : ctx.method = "GET" ∨
      (hGet h "content-type").map
        (fun s => (s.splitOn ";").headD "") = some MULTIPART_FORM_DATA
  · rw [if_pos hcond]
    by_cases hup : ctx.endpoint = "uploadFile"
    · rw [if_pos hup]
      simp only []
      by_cases hfp :
          strTruthy (hGet ctx.requestHeaders "x-portkey-file-purpose") = true
      · rw [if_pos hfp]
        have hct : hasKey (hSet (hSet (hDel h "content-type") "Content-Type"
            (hGet ctx.requestHeaders "content-type")) "x-portkey-file-purpose"
            (hGet ctx.requestHeaders "x-portkey-file-purpose"))
            "content-type" = false := by
          rw [hasKey_hSet_other _ (by decide), hasKey_hSet_other _ (by decide)]
          exact hasKey_hDel_self h "content-type"
        rw [postProcessHeaders_eq]
        rw [hGet_eq_none_of_not_hasKey hct]
        by_cases hget : ctx.method = "GET"
        · rw [if_pos (Or.inl hget), if_pos hup]
          simp only []
          rw [hDel_of_not_hasKey hct, if_pos hfp]
          have h1 : hSet (hSet (hSet (hDel h "content-type") "Content-Type"
              (hGet ctx.requestHeaders "content-type"))
              "x-portkey-file-purpose"
              (hGet ctx.requestHeaders "x-portkey-file-purpose"))
              "Content-Type" (hGet ctx.requestHeaders "content-type") =
              hSet (hSet (hDel h "content-type") "Content-Type"
                (hGet ctx.requestHeaders "content-type"))
                "x-portkey-file-purpose"
                (hGet ctx.requestHeaders "x-portkey-file-purpose") := by
            apply hSet_of_allKeyVal
            · rw [hasKey_hSet_other _ (by decide)]
              exact hasKey_hSet_self _ _ _
            · exact allKeyVal_hSet_other (by decide)
                (allKeyVal_hSet_self _ _ _)
          rw [h1]
          apply hSet_of_allKeyVal
          · exact hasKey_hSet_self _ _ _
          · exact allKeyVal_hSet_self _ _ _
        · rw [if_neg (by
            rintro (hg | hmp)
            · exact hget hg
            · exact Option.noConfusion hmp)]
      · rw [if_neg hfp]
        have hct : hasKey (hSet (hDel h "content-type") "Content-Type"
            (hGet ctx.requestHeaders "content-type")) "content-type" =
            false := by
          rw [hasKey_hSet_other _ (by decide)]
          exact hasKey_hDel_self h "content-type"
        rw [postProcessHeaders_eq]
        rw [hGet_eq_none_of_not_hasKey hct]
        by_cases hget : ctx.method = "GET"
        · rw [if_pos (Or.inl hget), if_pos hup]
          simp only []
          rw [hDel_of_not_hasKey hct, if_neg hfp]
          apply hSet_of_allKeyVal
          · exact hasKey_hSet_self _ _ _
          · exact allKeyVal_hSet_self _ _ _
        · rw [if_neg (by
            rintro (hg | hmp)
            · exact hget hg
            · exact Option.noConfusion hmp)]
    · rw [if_neg hup]
      have hct : hasKey (hDel h "content-type") "content-type" = false :=
        hasKey_hDel_self h "content-type"
      rw [postProcessHeaders_eq]
      rw [hGet_eq_none_of_not_hasKey hct]
      by_cases hget : ctx.method = "GET"
      · rw [if_pos (Or.inl hget), if_neg hup]
        exact hDel_of_not_hasKey hct
      · rw [if_neg (by
          rintro (hg | hmp)
          · exact hget hg
          · exact Option.noConfusion hmp)]
  · rw [if_neg hcond, postProcessHeaders_eq, if_neg hcond]

/-- **C10.** For every request whose HTTP method is GET or DELETE, the fetch
options built for the upstream call contain no body, regardless of content
type and of the multipart / proxy-audio / JSON body-shape decision. -/
theorem constructRequest_get_delete_no_body (ctx : ReqCtxBody)
    (providerMappedHeaders : HMap)
    (hm : ctx.headerCtx.method = "GET" ∨ ctx.headerCtx.method = "DELETE") :
    (constructRequest ctx providerMappedHeaders).body = none := by
  unfold constructRequest constructRequestBody
  simp only [if_pos hm]

/-- Witness for **C10** at a concrete GET request carrying a JSON body and
a JSON content type (a body would be constructed were the method POST). -/
theorem constructRequest_get_delete_no_body_witness :
    (let ctx : ReqCtxBody :=
      { headerCtx := { method := "GET", endpoint := "chatComplete",
                       requestHeaders := [("content-type",
                         some "application/json")],
                       customHeadersToIgnore := [] },
        requestBody := .jsonParams (.obj [("model", .str "gpt-4")]),
        transformedRequestBody := .jsonParams (.obj [("model", .str "gpt-4")]),
        forwardHeaders := [] }
    (constructRequest ctx []).body = none) := by
  exact constructRequest_get_delete_no_body _ [] (Or.inl rfl)

/-- **C3 counterexample.** The 446 hooks-denial response produced by
`createHooksFailureResponse` does **not** carry the
`x-portkey-gateway-exception` header: at a concrete hook-results payload its
header map has no entry for that header at all. -/
theorem createHooksFailureResponse_lacks_exception_header :
    (createHooksFailureResponse (.arr [])).status = 446 ∧
      hGet (createHooksFailureResponse (.arr [])).headers
        GATEWAY_EXCEPTION_HEADER = none := by
  refine ⟨rfl, ?_⟩
  simp [createHooksFailureResponse, hGet, GATEWAY_EXCEPTION_HEADER]

/-- **C3 (amended).** The two 500 failure responses shaped by the error
handler carry `x-portkey-gateway-exception: "true"`; the `RouterError` 400
response and the 446 hooks-denial response carry no such header. -/
theorem failureResponse_exception_headers (e : GError) (hookResults : Json) :
    hGet (handleTryPostError e).headers GATEWAY_EXCEPTION_HEADER
        = some "true" ∧
      hGet (handleTargetRecursionError e).headers GATEWAY_EXCEPTION_HEADER
        = some "true" ∧
      hGet (handleRouterError e).headers GATEWAY_EXCEPTION_HEADER = none ∧
      hGet (createHooksFailureResponse hookResults).headers
        GATEWAY_EXCEPTION_HEADER = none := by
  refine ⟨?_, ?_, ?_, ?_⟩ <;>
    simp [handleTryPostError, handleTargetRecursionError, handleRouterError,
      createHooksFailureResponse, hGet, GATEWAY_EXCEPTION_HEADER,
      DEFAULT_CONTENT_TYPE]

/-! ## Config builder (`src/handlers/services/providerConfigBuilder.ts`)

`convertKeysToCamelCase` and `toCamelCase` live in `src/utils.ts`, which is
not among the sources; they are modelled from the spec. The provider slugs
and `POWERED_BY` come from `globals.ts` (also not among the sources) and are
modelled from the spec's provider table. -/

/-- Capitalize the first character of a string. -/
def capitalizeStr (s : String) : String :=
  match s.data with
  | [] => ""
  | c :: cs => String.mk (c.toUpper :: cs)

/-- Modelled from the spec: `toCamelCase` (from `src/utils.ts`, not among
the sources): snake_case keys become camelCase. -/
def toCamelCase (s : String) : String :=
  match s.splitOn "_" with
  | [] => s
  | h :: t => h ++ String.join (t.map capitalizeStr)

/-- `ProviderConfigBuilder.CAMEL_CASE_EXCLUSIONS`: the twelve pinned keys
whose original key and inner-key casing are preserved. -/
def CAMEL_CASE_EXCLUSIONS : List String :=
  ["override_params", "params", "checks", "vertex_service_account_json",
   "vertexServiceAccountJson", "conditions", "input_guardrails",
   "output_guardrails", "default_input_guardrails",
   "default_output_guardrails", "integrationModelDetails", "cb_config"]

mutual

/-- Modelled from the spec: `convertKeysToCamelCase` (from `src/utils.ts`,
not among the sources): converts every object key to camelCase, except keys
in the exclusion list, which keep their original key and their whole value
(inner-key casing preserved). -/
def convertKeysToCamelCase : Json → List String → Json
  | .null, _ => .null
  | .bool b, _ => .bool b
  | .num n, _ => .num n
  | .str s, _ => .str s
  | .arr elems, excl => .arr (convertArr elems excl)
  | .obj entries, excl => .obj (convertObj entries excl)

/-- Array branch of `convertKeysToCamelCase`. -/
def convertArr : List Json → List String → List Json
  | [], _ => []
  | e :: rest, excl => convertKeysToCamelCase e excl :: convertArr rest excl

/-- Object branch of `convertKeysToCamelCase`. -/
def convertObj : List (String × Json) → List String → List (String × Json)
  | [], _ => []
  | (k, v) :: rest, excl =>
      (if k ∈ excl then (k, v)
       else (toCamelCase k, convertKeysToCamelCase v excl))
        :: convertObj rest excl

end

/-- Assignment `m[k] = v` on a JSON object. -/
def jSet (m : JMap) (k : String) (v : Json) : JMap :=
  if m.any (fun p => p.1 = k) then
    m.map (fun p => if p.1 = k then (k, v) else p)
  else
    m ++ [(k, v)]

/-- JS truthiness of an optional JSON value. -/
def jsTruthy : Option Json → Bool
  | none => false
  | some .null => false
  | some (.bool b) => b
  | some (.num n) => n ≠ 0
  | some (.str s) => s ≠ ""
  | some (.arr _) => true
  | some (.obj _) => true

/-- A header value as a JSON field value; JS `undefined` (absent header) is
collapsed to `null` (no claim distinguishes the two). -/
def jStr : Option String → Json
  | some s => .str s
  | none => .null

/-- JS `s.replace(pat, '')` with a string pattern: remove the first
occurrence only. -/
def removeFirstOccurrence (s pat : String) : String :=
  match s.splitOn pat with
  | [] => s
  | [x] => x
  | x :: y :: rest => x ++ y ++ String.join (rest.map (fun r => pat ++ r))

/-- `JSON.parse` is a JS builtin; modelled as an oracle giving the parsed
value of each header string. -/
structure BuilderEnv where
  parse : String → Json

/-- `ProviderConfigBuilder.buildBaseConfig`. -/
def buildBaseConfig (env : BuilderEnv) (requestHeaders : HMap) : JMap :=
  [("input_guardrails",
    if strTruthy (hGet requestHeaders "x-portkey-default-input-guardrails")
    then env.parse
      ((hGet requestHeaders "x-portkey-default-input-guardrails").getD "")
    else .arr []),
   ("output_guardrails",
    if strTruthy (hGet requestHeaders "x-portkey-default-output-guardrails")
    then env.parse
      ((hGet requestHeaders "x-portkey-default-output-guardrails").getD "")
    else .arr [])]

/-- `ProviderConfigBuilder.buildAzureConfig`. -/
def buildAzureConfig (h : HMap) : JMap :=
  [("resourceName", jStr (hGet h "x-portkey-azure-resource-name")),
   ("deploymentId", jStr (hGet h "x-portkey-azure-deployment-id")),
   ("apiVersion", jStr (hGet h "x-portkey-azure-api-version")),
   ("azureAdToken", jStr (hGet h "x-portkey-azure-ad-token")),
   ("azureAuthMode", jStr (hGet h "x-portkey-azure-auth-mode")),
   ("azureManagedClientId", jStr (hGet h "x-portkey-azure-managed-client-id")),
   ("azureEntraClientId", jStr (hGet h "x-portkey-azure-entra-client-id")),
   ("azureEntraClientSecret",
    jStr (hGet h "x-portkey-azure-entra-client-secret")),
   ("azureEntraTenantId", jStr (hGet h "x-portkey-azure-entra-tenant-id")),
   ("azureModelName", jStr (hGet h "x-portkey-azure-model-name")),
   ("openaiBeta",
    jStr ((hGet h "x-portkey-openai-beta").orElse
      (fun _ => hGet h "openai-beta")))]

/-- `ProviderConfigBuilder.buildAwsConfig`. -/
def buildAwsConfig (h : HMap) : JMap :=
  [("awsAccessKeyId", jStr (hGet h "x-portkey-aws-access-key-id")),
   ("awsSecretAccessKey", jStr (hGet h "x-portkey-aws-secret-access-key")),
   ("awsSessionToken", jStr (hGet h "x-portkey-aws-session-token")),
   ("awsRegion", jStr (hGet h "x-portkey-aws-region")),
   ("awsRoleArn", jStr (hGet h "x-portkey-aws-role-arn")),
   ("awsAuthType", jStr (hGet h "x-portkey-aws-auth-type")),
   ("awsExternalId", jStr (hGet h "x-portkey-aws-external-id")),
   ("awsS3Bucket", jStr (hGet h "x-portkey-aws-s3-bucket")),
   ("awsS3ObjectKey",
    jStr ((hGet h "x-portkey-aws-s3-object-key").orElse
      (fun _ => hGet h "x-portkey-provider-file-name"))),
   ("awsBedrockModel",
    jStr ((hGet h "x-portkey-aws-bedrock-model").orElse
      (fun _ => hGet h "x-portkey-provider-model"))),
   ("awsServerSideEncryption",
    jStr (hGet h "x-portkey-amz-server-side-encryption")),
   ("awsServerSideEncryptionKMSKeyId",
    jStr (hGet h "x-portkey-amz-server-side-encryption-aws-kms-key-id"))]

/-- `ProviderConfigBuilder.buildSagemakerConfig`. -/
def buildSagemakerConfig (h : HMap) : JMap :=
  [("amznSagemakerCustomAttributes",
    jStr (hGet h "x-portkey-amzn-sagemaker-custom-attributes")),
   ("amznSagemakerTargetModel",
    jStr (hGet h "x-portkey-amzn-sagemaker-target-model")),
   ("amznSagemakerTargetVariant",
    jStr (hGet h "x-portkey-amzn-sagemaker-target-variant")),
   ("amznSagemakerTargetContainerHostname",
    jStr (hGet h "x-portkey-amzn-sagemaker-target-container-hostname")),
   ("amznSagemakerInferenceId",
    jStr (hGet h "x-portkey-amzn-sagemaker-inference-id")),
   ("amznSagemakerEnableExplanations",
    jStr (hGet h "x-portkey-amzn-sagemaker-enable-explanations")),
   ("amznSagemakerInferenceComponent",
    jStr (hGet h "x-portkey-amzn-sagemaker-inference-component")),
   ("amznSagemakerSessionId",
    jStr (hGet h "x-portkey-amzn-sagemaker-session-id")),
   ("amznSagemakerModelName",
    jStr (hGet h "x-portkey-amzn-sagemaker-model-name"))]

/-- `ProviderConfigBuilder.buildStabilityAiConfig`. -/
def buildStabilityAiConfig (h : HMap) : JMap :=
  [("stabilityClientId", jStr (hGet h "x-portkey-stability-client-id")),
   ("stabilityClientUserId",
    jStr (hGet h "x-portkey-stability-client-user-id")),
   ("stabilityClientVersion",
    jStr (hGet h "x-portkey-stability-client-version"))]

/-- `ProviderConfigBuilder.buildAzureAiInferenceConfig`. -/
def buildAzureAiInferenceConfig (h : HMap) : JMap :=
  [("azureApiVersion", jStr (hGet h "x-portkey-azure-api-version")),
   ("azureEndpointName", jStr (hGet h "x-portkey-azure-endpoint-name")),
   ("azureFoundryUrl", jStr (hGet h "x-portkey-azure-foundry-url")),
   ("azureExtraParams", jStr (hGet h "x-portkey-azure-extra-params"))]

/-- `ProviderConfigBuilder.buildWorkersAiConfig`. -/
def buildWorkersAiConfig (h : HMap) : JMap :=
  [("workersAiAccountId", jStr (hGet h "x-portkey-workers-ai-account-id"))]

/-- `ProviderConfigBuilder.buildOpenAiConfig`. -/
def buildOpenAiConfig (h : HMap) : JMap :=
  [("openaiOrganization", jStr (hGet h "x-portkey-openai-organization")),
   ("openaiProject", jStr (hGet h "x-portkey-openai-project")),
   ("openaiBeta",
    jStr ((hGet h "x-portkey-openai-beta").orElse
      (fun _ => hGet h "openai-beta")))]

/-- `ProviderConfigBuilder.buildHuggingfaceConfig`. -/
def buildHuggingfaceConfig (h : HMap) : JMap :=
  [("huggingfaceBaseUrl", jStr (hGet h "x-portkey-huggingface-base-url"))]

/-- `ProviderConfigBuilder.buildVertexConfig`. `JSON.parse` failure on the
service-account header nulls the field. The parse oracle is total here;
modelling parse failure as any `Json` value is irrelevant to the claims. -/
def buildVertexConfig (env : BuilderEnv) (h : HMap) : JMap :=
  let config : JMap :=
    [("vertexProjectId", jStr (hGet h "x-portkey-vertex-project-id")),
     ("vertexRegion", jStr (hGet h "x-portkey-vertex-region")),
     ("vertexStorageBucketName",
      jStr (hGet h "x-portkey-vertex-storage-bucket-name")),
     ("filename", jStr (hGet h "x-portkey-provider-file-name")),
     ("vertexModelName", jStr (hGet h "x-portkey-provider-model")),
     ("vertexBatchEndpoint",
      jStr (hGet h "x-portkey-provider-batch-endpoint"))]
  if strTruthy (hGet h "x-portkey-vertex-service-account-json") then
    jSet config "vertexServiceAccountJson"
      (env.parse ((hGet h "x-portkey-vertex-service-account-json").getD ""))
  else config

/-- `ProviderConfigBuilder.buildFireworksConfig`. -/
def buildFireworksConfig (h : HMap) : JMap :=
  [("fireworksAccountId", jStr (hGet h "x-portkey-fireworks-account-id")),
   ("fireworksFileLength", jStr (hGet h "x-portkey-file-upload-size"))]

/-- `ProviderConfigBuilder.buildAnthropicConfig`. -/
def buildAnthropicConfig (h : HMap) : JMap :=
  [("anthropicBeta", jStr (hGet h "x-portkey-anthropic-beta")),
   ("anthropicVersion", jStr (hGet h "x-portkey-anthropic-version"))]

/-- `ProviderConfigBuilder.buildCortexConfig`. -/
def buildCortexConfig (h : HMap) : JMap :=
  [("snowflakeAccount", jStr (hGet h "x-portkey-snowflake-account"))]

/-- `{...config, ...providerSpecific}` on JSON objects. -/
def jmSpread (a b : JMap) : JMap :=
  b.foldl (fun acc p => jSet acc p.1 p.2) a

/-- `ProviderConfigBuilder.addProviderSpecificConfig`. Provider slugs are
modelled from the spec's §4.1.1 table (`globals.ts` is not among the
sources). -/
def addProviderSpecificConfig (env : BuilderEnv) (config : JMap)
    (provider : Option String) (h : HMap) : JMap :=
  if provider = some "azure-openai" then jmSpread config (buildAzureConfig h)
  else if provider = some "bedrock" then jmSpread config (buildAwsConfig h)
  else if provider = some "sagemaker" then
    jmSpread (jmSpread config (buildAwsConfig h)) (buildSagemakerConfig h)
  else if provider = some "workers-ai" then
    jmSpread config (buildWorkersAiConfig h)
  else if provider = some "google-vertex-ai" then
    jmSpread config (buildVertexConfig env h)
  else if provider = some "azure-ai-inference" then
    jmSpread config (buildAzureAiInferenceConfig h)
  else if provider = some "openai" then jmSpread config (buildOpenAiConfig h)
  else if provider = some "anthropic" then
    jmSpread config (buildAnthropicConfig h)
  else if provider = some "huggingface" then
    jmSpread config (buildHuggingfaceConfig h)
  else if provider = some "stability-ai" then
    jmSpread config (buildStabilityAiConfig h)
  else if provider = some "fireworks-ai" then
    jmSpread config (buildFireworksConfig h)
  else if provider = some "cortex" then jmSpread config (buildCortexConfig h)
  else if strTruthy (hGet h "x-portkey-mistral-fim-completion") then
    jSet config "mistralFimCompletion"
      (jStr (hGet h "x-portkey-mistral-fim-completion"))
  else config

/-- `ProviderConfigBuilder.enhanceConfigWithProviderSpecifics`. -/
def enhanceConfigWithProviderSpecifics (env : BuilderEnv)
    (parsedConfig : JMap) (requestHeaders : HMap) : JMap :=
  let provider := hGet requestHeaders "x-portkey-provider"
  let p1 := jSet parsedConfig "provider" (jStr provider)
  let p2 := jSet p1 "api_key"
    (jStr ((hGet requestHeaders "authorization").map
      (fun s => removeFirstOccurrence s "Bearer ")))
  addProviderSpecificConfig env p2 provider requestHeaders

/-- The object `buildFromConfigHeader` hands to `convertKeysToCamelCase`:
the parsed config header with default guardrails attached and, when neither
`provider` nor `targets` is set, provider-specific enrichment. -/
def preCamelCaseConfig (env : BuilderEnv) (requestHeaders : HMap)
    (parsedConfigJson : JMap) : JMap :=
  let base := buildBaseConfig env requestHeaders
  let p1 := jSet parsedConfigJson "default_input_guardrails"
    ((jGet base "input_guardrails").getD .null)
  let p2 := jSet p1 "default_output_guardrails"
    ((jGet base "output_guardrails").getD .null)
  if ¬ jsTruthy (jGet p2 "provider") ∧ ¬ jsTruthy (jGet p2 "targets") then
    enhanceConfigWithProviderSpecifics env p2 requestHeaders
  else p2

/-- `ProviderConfigBuilder.buildFromConfigHeader`; its `JSON.parse` of the
`x-portkey-config` header is the JS builtin, so the parsed object is taken
as input. -/
def buildFromConfigHeader (env : BuilderEnv) (requestHeaders : HMap)
    (parsedConfigJson : JMap) : Json :=
  convertKeysToCamelCase
    (.obj (preCamelCaseConfig env requestHeaders parsedConfigJson))
    CAMEL_CASE_EXCLUSIONS

/-- The entries of a JSON object (empty for non-objects). -/
def jEntries : Json → JMap
  | .obj entries => entries
  | _ => []

theorem convertObj_mem (excl : List String)
    (entries : List (String × Json)) (k : String) (v : Json)
    (hmem : (k, v) ∈ entries) :
    (k ∈ excl → (k, v) ∈ convertObj entries excl) ∧
      (k ∉ excl →
        (toCamelCase k, convertKeysToCamelCase v excl) ∈
          convertObj entries excl) := by
  induction entries with
  | nil => cases hmem
  | cons p rest ih =>
    obtain ⟨k', v'⟩ := p
    rcases List.mem_cons.mp hmem with h | h
    · obtain ⟨hk, hv⟩ := Prod.mk.injEq .. ▸ h
      subst hk
      subst hv
      constructor
      · intro hkin
        rw [convertObj, if_pos hkin]
        exact List.mem_cons_self _ _
      · intro hkout
        rw [convertObj, if_neg hkout]
        exact List.mem_cons_self _ _
    · have hrest := ih h
      constructor
      · intro hkin
        rw [convertObj]
        exact List.mem_cons_of_mem _ (hrest.1 hkin)
      · intro hkout
        rw [convertObj]
        exact List.mem_cons_of_mem _ (hrest.2 hkout)

/-- **C9.** When the Config Builder parses the `x-portkey-config` header,
every key of the resulting configuration is converted to camelCase except
the twelve pinned exclusion keys, which keep their original key and their
whole value (inner-key casing preserved). -/
theorem buildFromConfigHeader_camelCase_keys (env : BuilderEnv)
    (requestHeaders : HMap) (parsedConfigJson : JMap) (k : String) (v : Json)
    (hmem : (k, v) ∈ preCamelCaseConfig env requestHeaders parsedConfigJson) :
    (k ∈ CAMEL_CASE_EXCLUSIONS →
      (k, v) ∈ jEntries
        (buildFromConfigHeader env requestHeaders parsedConfigJson)) ∧
      (k ∉ CAMEL_CASE_EXCLUSIONS →
        (toCamelCase k, convertKeysToCamelCase v CAMEL_CASE_EXCLUSIONS) ∈
          jEntries
            (buildFromConfigHeader env requestHeaders parsedConfigJson)) := by
  unfold buildFromConfigHeader
  rw [convertKeysToCamelCase, jEntries]
  exact convertObj_mem _ _ _ _ hmem

/-- Witness for **C9**: a concrete config carrying `override_params` (an
exclusion-list key) survives with its original key and untouched inner
casing; the hypothesis is discharged on the computed pre-conversion object. -/
theorem buildFromConfigHeader_camelCase_keys_witness :
    (("override_params", Json.obj [("Max_Tokens", Json.num 5)]) ∈
        preCamelCaseConfig ⟨fun _ => Json.null⟩ []
          [("override_params", Json.obj [("Max_Tokens", Json.num 5)]),
           ("provider", Json.str "openai")]) ∧
      ("override_params", Json.obj [("Max_Tokens", Json.num 5)]) ∈
        jEntries (buildFromConfigHeader ⟨fun _ => Json.null⟩ []
          [("override_params", Json.obj [("Max_Tokens", Json.num 5)]),
           ("provider", Json.str "openai")]) := by
  have hmem : ("override_params", Json.obj [("Max_Tokens", Json.num 5)]) ∈
      preCamelCaseConfig ⟨fun _ => Json.null⟩ []
        [("override_params", Json.obj [("Max_Tokens", Json.num 5)]),
         ("provider", Json.str "openai")] := by
    have e : preCamelCaseConfig ⟨fun _ => Json.null⟩ []
        [("override_params", Json.obj [("Max_Tokens", Json.num 5)]),
         ("provider", Json.str "openai")] =
        [("override_params", Json.obj [("Max_Tokens", Json.num 5)]),
         ("provider", Json.str "openai"),
         ("default_input_guardrails", Json.arr []),
         ("default_output_guardrails", Json.arr [])] := rfl
    rw [e]
    exact List.mem_cons_self _ _
  exact ⟨hmem,
    (buildFromConfigHeader_camelCase_keys _ _ _ _ _ hmem).1 (by decide)⟩

/-! ## Target tree data model (`src/types/requestBody.ts` shape as used by
`tryTargetsRecursively`) -/

/-- `strategy {mode, onStatusCodes}` on a target node. -/
structure StrategyCfg where
  mode : Option String
  onStatusCodes : Option (List Nat)
deriving Repr

/-- The non-recursive fields of a target node that the resolver reads or
writes. -/
structure TargetData where
  id : Option String := none
  strategy : Option StrategyCfg := none
  overrideParams : Option JMap := none
  retry : Option JMap := none
  cache : Option JMap := none
  requestTimeout : Option Int := none
  strictOpenAiCompliance : Option Bool := none
  forwardHeaders : Option (List String) := none
  customHost : Option String := none
  inputGuardrails : Option (List Json) := none
  outputGuardrails : Option (List Json) := none
  inputMutators : Option (List Json) := none
  outputMutators : Option (List Json) := none
  defaultInputGuardrails : Option (List Json) := none
  defaultOutputGuardrails : Option (List Json) := none
  beforeRequestHooks : Option (List Json) := none
  afterRequestHooks : Option (List Json) := none
  weight : Option ℚ := none
  isOpen : Option Bool := none
  originalIndex : Option Nat := none
  cbConfig : Option Json := none
deriving Repr

/-- A target node: leaf/config fields plus optional children. -/
inductive Target where
  | mk (data : TargetData) (targets : Option (List Target)) : Target

def Target.data : Target → TargetData
  | .mk d _ => d

def Target.targets : Target → Option (List Target)
  | .mk _ ts => ts

/-- The inherited-config record threaded down the recursion
(`InheritedConfigData`). The resolver's base-case test
`Object.keys(inheritedConfig).length === 0` holds exactly for the literal
`{}` of the initial call, so the resolver takes an `Option InheritedR`
with `none` as that empty record. -/
structure InheritedR where
  id : Option String := none
  overrideParams : Option JMap := none
  retry : Option JMap := none
  cache : Option JMap := none
  requestTimeout : Option Int := none
  defaultInputGuardrails : Option (List Json) := none
  defaultOutputGuardrails : Option (List Json) := none
  strictOpenAiCompliance : Option Bool := none
  forwardHeaders : Option (List String) := none
  customHost : Option String := none
  afterRequestHooks : Option (List Json) := none
  beforeRequestHooks : Option (List Json) := none
deriving Repr

/-- Field access `inheritedConfig.f` when the record may be the empty `{}`. -/
def inhF {α : Type} (inh : Option InheritedR) (f : InheritedR → Option α) :
    Option α :=
  match inh with
  | some i => f i
  | none => none

/-- Set `obj.checks` on a JSON value (object assignment). -/
def jSetJson (j : Json) (k : String) (v : Json) : Json :=
  .obj (jSet (jEntries j) k v)

/-- `convertHooksShorthand` (`handlerUtils.ts`): expand each shorthand hook
into the canonical hook object: generated id, extracted fixed keys,
camelCased top level, remaining keys as `checks[]`. The random id suffix
(`Math.random().toString(36).substring(2, EXTRACTABLE_KEYS.length)`) is the
`randId` oracle. -/
def convertHooksShorthand (hooksArr : List Json) (type : String)
    (hookType : String) (randId : String) : List Json :=
  hooksArr.map (fun hook =>
    let hookEntries := jEntries hook
    let hooksObject : JMap :=
      [("type", .str hookType),
       ("id", .str (type ++ "_guardrail_" ++ randId))]
    let hooksObject2 := EXTRACTABLE_KEYS.foldl
      (fun acc key =>
        match jGet hookEntries key with
        | some v => jSet acc key v
        | none => acc) hooksObject
    let remaining := hookEntries.filter (fun p => p.1 ∉ EXTRACTABLE_KEYS)
    let converted := convertKeysToCamelCase (.obj hooksObject2) []
    let checks := remaining.map (fun p =>
      Json.obj
        [("id", .str (if p.1.contains '.' then p.1
                      else DEFAULT_PLUGIN_PREF ++ p.1)),
         ("parameters", p.2),
         ("is_enabled",
          match p.2 with
          | .obj o => (jGet o "is_enabled").getD .null
          | _ => .null)])
    jSetJson converted "checks" (.arr checks))

/-- The shorthand-normalization steps of `tryTargetsRecursively`
(lines 296–338): append expanded `inputGuardrails` / `outputGuardrails` /
`inputMutators` / `outputMutators` to the node's before/after request
hooks, in source order. -/
def appendShorthandHooks (randId : String) (d : TargetData) : TargetData :=
  let d1 := match d.inputGuardrails with
    | some l =>
      let hooks := (d.beforeRequestHooks.getD []) ++
        convertHooksShorthand l "input" "guardrail" randId
      { d with beforeRequestHooks := some hooks }
    | none => d
  let d2 := match d1.outputGuardrails with
    | some l =>
      let hooks := (d1.afterRequestHooks.getD []) ++
        convertHooksShorthand l "output" "guardrail" randId
      { d1 with afterRequestHooks := some hooks }
    | none => d1
  let d3 := match d2.inputMutators with
    | some l =>
      let hooks := (d2.beforeRequestHooks.getD []) ++
        convertHooksShorthand l "input" "mutator" randId
      { d2 with beforeRequestHooks := some hooks }
    | none => d2
  match d3.outputMutators with
  | some l =>
    let hooks := (d3.afterRequestHooks.getD []) ++
      convertHooksShorthand l "output" "mutator" randId
    { d3 with afterRequestHooks := some hooks }
  | none => d3

/-- Lines 275–280: forward-header inheritance with current-node preference;
returns the merged value and the (possibly mutated) current target data. -/
def fhMerge (inh : Option InheritedR) (d : TargetData) :
    Option (List String) × TargetData :=
  match d.forwardHeaders with
  | some l => (some l, d)
  | none =>
    match inhF inh InheritedR.forwardHeaders with
    | some l => (some l, { d with forwardHeaders := some l })
    | none => (none, d)

/-- Lines 282–287: custom-host inheritance (string truthiness). -/
def chMerge (inh : Option InheritedR) (d : TargetData) :
    Option String × TargetData :=
  if strTruthy d.customHost then (d.customHost, d)
  else if strTruthy (inhF inh InheritedR.customHost) then
    (inhF inh InheritedR.customHost,
     { d with customHost := inhF inh InheritedR.customHost })
  else (none, d)

/-- Lines 289–294: request-timeout inheritance (number truthiness). -/
def rtMerge (inh : Option InheritedR) (d : TargetData) :
    Option Int × TargetData :=
  if numTruthy d.requestTimeout then (d.requestTimeout, d)
  else if numTruthy (inhF inh InheritedR.requestTimeout) then
    (inhF inh InheritedR.requestTimeout,
     { d with requestTimeout := inhF inh InheritedR.requestTimeout })
  else (none, d)

/-- Lines 340–349: after-request-hooks inheritance. -/
def arhMerge (inh : Option InheritedR) (d : TargetData) :
    Option (List Json) × TargetData :=
  match d.afterRequestHooks with
  | some l => (some l, d)
  | none =>
    match inhF inh InheritedR.afterRequestHooks with
    | some l => (some l, { d with afterRequestHooks := some l })
    | none => (none, d)

/-- Lines 351–360: before-request-hooks inheritance. -/
def brhMerge (inh : Option InheritedR) (d : TargetData) :
    Option (List Json) × TargetData :=
  match d.beforeRequestHooks with
  | some l => (some l, d)
  | none =>
    match inhF inh InheritedR.beforeRequestHooks with
    | some l => (some l, { d with beforeRequestHooks := some l })
    | none => (none, d)

/-- The merge of the inherited config with the current target
(`tryTargetsRecursively` lines 222–380), including the mutations it
performs on the current target and the two trailing array spreads of
`currentInheritedConfig.defaultInput/OutputGuardrails`, which throw a
`TypeError` when the spread value is `undefined`. -/
def mergePhase (randId : String) (t : Target) (inh : Option InheritedR) :
    Except GError (Target × InheritedR) :=
  let d := t.data
  let id0 := if strTruthy (inhF inh InheritedR.id) then inhF inh InheritedR.id
             else d.id
  let overrideParams := jSpread ((inhF inh InheritedR.overrideParams).getD [])
    (d.overrideParams.getD [])
  let retry := match d.retry with
    | some r => r
    | none => (inhF inh InheritedR.retry).getD []
  let cache := match d.cache with
    | some c => c
    | none => (inhF inh InheritedR.cache).getD []
  let dig := match inh with
    | none =>
      match d.defaultInputGuardrails with
      | some l => some (convertHooksShorthand l "input" "guardrail" randId)
      | none => none
    | some i => i.defaultInputGuardrails
  let dog := match inh with
    | none =>
      match d.defaultOutputGuardrails with
      | some l => some (convertHooksShorthand l "output" "guardrail" randId)
      | none => none
    | some i => i.defaultOutputGuardrails
  let soc := match d.strictOpenAiCompliance with
    | some b => some b
    | none => inhF inh InheritedR.strictOpenAiCompliance
  let fhStep := fhMerge inh d
  let fh := fhStep.1
  let dA := fhStep.2
  let chStep := chMerge inh dA
  let ch := chStep.1
  let dB := chStep.2
  let rtStep := rtMerge inh dB
  let rt := rtStep.1
  let dC := rtStep.2
  let dH := appendShorthandHooks randId dC
  let arhStep := arhMerge inh dH
  let arh := arhStep.1
  let dD := arhStep.2
  let brhStep := brhMerge inh dD
  let brh := brhStep.1
  let dE := brhStep.2
  let dF := { dE with overrideParams := some overrideParams,
                      retry := some retry, cache := some cache }
  match dig with
  | none => .error spreadUndefinedTypeError
  | some digL =>
    match dog with
    | none => .error spreadUndefinedTypeError
    | some dogL =>
      let dG := { dF with defaultInputGuardrails := some digL,
                          defaultOutputGuardrails := some dogL }
      let cur : InheritedR :=
        { id := id0, overrideParams := some overrideParams,
          retry := some retry, cache := some cache, requestTimeout := rt,
          defaultInputGuardrails := dig, defaultOutputGuardrails := dog,
          strictOpenAiCompliance := soc, forwardHeaders := fh,
          customHost := ch, afterRequestHooks := arh,
          beforeRequestHooks := brh }
      .ok (Target.mk dG t.targets, cur)

/-- Circuit-breaker filtering (`tryTargetsRecursively` lines 382–394):
when the merged config carries a truthy `id`, stamp each child with its
`originalIndex` and keep only children with `isOpen != true` — but only if
at least one healthy child remains; otherwise keep the original list. -/
def stampOriginalIndex (i : ℕ) (c : Target) : Target :=
  Target.mk { c.data with originalIndex := some i } c.targets

/-- `!t.isOpen`: truthy `isOpen` means open; keep the others. -/
def isHealthyTarget (c : Target) : Bool :=
  ! (c.data.isOpen.getD false)

def cbFilterTargets (currentInheritedConfig : InheritedR) (t : Target) :
    Target :=
  if strTruthy currentInheritedConfig.id then
    let stamped := List.mapIdx stampOriginalIndex (t.targets.getD [])
    let healthyTargets := List.filter isHealthyTarget stamped
    if healthyTargets.length ≠ 0 then Target.mk t.data (some healthyTargets)
    else t
  else t

/-- A `TypeError` from reading a property of `undefined`. -/
def undefinedPropertyTypeError : GError :=
  { name := "TypeError",
    message := "Cannot read properties of undefined",
    isGatewayError := false }

/-- Modelling artifact: result of running the fueled resolver out of fuel;
never reachable with enough fuel for the tree at hand. -/
def fuelExhaustedError : GError :=
  { name := "FuelExhausted", message := "recursion fuel exhausted",
    isGatewayError := false }

/-! ## Strategies (`src/handlers/strategies/...`)

Each strategy receives the recursion on children (`tryTargetsRecursively`
partially applied to the current inherited config) as `recurse`. -/

/-- `FallbackStrategy.shouldStopFallback`. -/
def shouldStopFallback (response : GResponse)
    (strategy : Option StrategyCfg) : Bool :=
  let codes := strategy >>= StrategyCfg.onStatusCodes
  let gatewayException :=
    hGet response.headers GATEWAY_EXCEPTION_HEADER = some "true"
  (match codes with
   | some cs => ! (cs.contains response.status)
   | none => false) ||
    (codes.isNone && response.ok) ||
    gatewayException

/-- The `for` loop of `FallbackStrategy.execute`: the `response` variable
holds the last child's response; the loop breaks at the first response
satisfying `shouldStopFallback`. -/
def fallbackGo (recurse : Target → Except GError GResponse) :
    List Target → Except GError (Option GResponse)
  | [] => .ok none
  | c :: rest =>
    match recurse c with
    | .error e => .error e
    | .ok r =>
      if shouldStopFallback r c.data.strategy then
        .ok (some r)
      else
        match fallbackGo recurse rest with
        | .error e => .error e
        | .ok none => .ok (some r)
        | .ok (some r2) => .ok (some r2)

/-- `FallbackStrategy.execute`. -/
def fallbackExecute (recurse : Target → Except GError GResponse)
    (targets : List Target) : Except GError GResponse :=
  match fallbackGo recurse targets with
  | .error e => .error e
  | .ok none => .error (plainError "All fallback attempts failed")
  | .ok (some r) => .ok r

/-- `SingleStrategy.execute`. -/
def singleExecute (recurse : Target → Except GError GResponse)
    (targets : List Target) : Except GError GResponse :=
  match targets with
  | [] => .error (plainError "No targets available for single strategy")
  | c :: _ => recurse c

/-- `LoadBalanceStrategy.assignDefaultWeights`. -/
def assignDefaultWeights (targets : List Target) : List Target :=
  targets.map (fun c =>
    Target.mk { c.data with weight := some (c.data.weight.getD 1) } c.targets)

/-- The selection loop of `LoadBalanceStrategy.selectTargetByWeight`:
return the first target whose weight exceeds the remaining random weight. -/
def selectTargetByWeight (targets : List Target) (randomWeight : ℚ) :
    Option Target :=
  match targets with
  | [] => none
  | c :: rest =>
    if randomWeight < c.data.weight.getD 0 then some c
    else selectTargetByWeight rest (randomWeight - c.data.weight.getD 0)

/-- `LoadBalanceStrategy.execute`; `Math.random()` enters as `rand`, a draw
in `[0,1)`. -/
def loadBalanceExecute (recurse : Target → Except GError GResponse)
    (rand : ℚ) (targets : List Target) : Except GError GResponse :=
  let weightedTargets := assignDefaultWeights targets
  let totalWeight := weightedTargets.foldl
    (fun sum c => sum + c.data.weight.getD 0) 0
  if totalWeight = 0 then
    .error (plainError "Total weight cannot be zero for load balancing")
  else
    match selectTargetByWeight weightedTargets (rand * totalWeight) with
    | some c => recurse c
    | none =>
      match weightedTargets.getLast? with
      | some c => recurse c
      | none => .error undefinedPropertyTypeError

/-- `ConditionalStrategy.execute`: the external `ConditionalRouter`
(`src/services/conditionalRouter.ts`, not among the sources) is the
`routeResult` oracle, selecting a child index or failing; any router error
is re-thrown as a `RouterError`. A selection outside the children array
surfaces as the `TypeError` of reading `undefined`. -/
def conditionalExecute (recurse : Target → Except GError GResponse)
    (routeResult : Except GError Nat) (targets : List Target) :
    Except GError GResponse :=
  match routeResult with
  | .error e => .error (routerError e.message)
  | .ok i =>
    match targets.get? i with
    | some c => recurse c
    | none => .error undefinedPropertyTypeError

/-- The external collaborators of the resolver, as oracles. -/
structure ResolverEnv where
  leafExec : Target → Except GError GResponse
  cbNotify : GResponse → String → Option Json → Except GError Unit
  condRoute : List Target → Except GError Nat
  randLB : Target → ℚ
  randId : String

/-- `StrategyFactory.create(mode)` followed by `strategy.execute(...)`: the
dispatch on the strategy mode; an unknown mode throws. -/
def dispatchStrategy (recurse : Target → Except GError GResponse)
    (strategyMode : Option String) (rand : ℚ)
    (routeResult : Except GError Nat) (targets : List Target) :
    Except GError GResponse :=
  if strategyMode = some "fallback" then fallbackExecute recurse targets
  else if strategyMode = some "loadbalance" then
    loadBalanceExecute recurse rand targets
  else if strategyMode = some "conditional" then
    conditionalExecute recurse routeResult targets
  else if strategyMode = some "single" then singleExecute recurse targets
  else
    .error (plainError ("Unknown strategy mode: " ++ strategyMode.getD ""))

/-- The `catch` around strategy execution (`tryTargetsRecursively` lines
417–422): a `RouterError` is re-thrown, anything else becomes the 500
failure response. -/
def catchStrategyErrors (result : Except GError GResponse) :
    Except GError GResponse :=
  match result with
  | .ok r => .ok r
  | .error e =>
    if e.name = "RouterError" then .error e
    else .ok (handleTargetRecursionError e)

/-- The leaf path (`tryTargetsRecursively` lines 425–444): `tryPost`, then
the circuit-breaker notify hook when an id is being handled. -/
def leafFlow (env : ResolverEnv) (currentInheritedConfig : InheritedR)
    (currentTarget : Target) : Except GError GResponse :=
  match env.leafExec currentTarget with
  | .error e => .error e
  | .ok response =>
    if strTruthy currentInheritedConfig.id then
      match env.cbNotify response (currentInheritedConfig.id.getD "")
          currentTarget.data.cbConfig with
      | .ok _ => .ok response
      | .error e => .error e
    else
      .ok response

/-- The `catch` around the leaf path (`tryTargetsRecursively` lines
445–450): every error becomes the 500 failure response. -/
def catchLeafErrors (leafResult : Except GError GResponse) :
    Except GError GResponse :=
  match leafResult with
  | .ok r => .ok r
  | .error e => .ok (handleTargetRecursionError e)

/-- `tryTargetsRecursively` (`handlerUtils.ts` lines 212–455), with a fuel
parameter bounding the recursion depth. Per the spec's design note, the
dangling `default:` is read as: a node with a strategy mode and children
dispatches to the strategy; any other node is a leaf handed to `tryPost`
(`env.leafExec`). -/
def tryTargetsRecursively (env : ResolverEnv) :
    Nat → Target → Option InheritedR → Except GError GResponse
  | 0, _, _ => .error fuelExhaustedError
  | n + 1, targetGroup, inheritedConfig =>
    match mergePhase env.randId targetGroup inheritedConfig with
    | .error e => .error e
    | .ok (merged, currentInheritedConfig) =>
      if strTruthy (targetGroup.data.strategy >>= StrategyCfg.mode) &&
          (cbFilterTargets currentInheritedConfig merged).targets.isSome then
        catchStrategyErrors (dispatchStrategy
          (fun c => tryTargetsRecursively env n c (some currentInheritedConfig))
          (targetGroup.data.strategy >>= StrategyCfg.mode)
          (env.randLB targetGroup)
          (env.condRoute
            ((cbFilterTargets currentInheritedConfig merged).targets.getD []))
          ((cbFilterTargets currentInheritedConfig merged).targets.getD []))
      else
        catchLeafErrors (leafFlow env currentInheritedConfig
          (cbFilterTargets currentInheritedConfig merged))

/-- An all-trivial oracle environment for concrete runs. -/
def trivialResolverEnv : ResolverEnv :=
  { leafExec := fun _ =>
      .ok { status := 200, headers := [], body := .obj [("ok", .bool true)] },
    cbNotify := fun _ _ _ => .ok (),
    condRoute := fun _ => .ok 0,
    randLB := fun _ => 0,
    randId := "abc12" }

theorem catchStrategyErrors_error_router (result : Except GError GResponse)
    (e : GError) (h : catchStrategyErrors result = .error e) :
    e.name = "RouterError" := by
  unfold catchStrategyErrors at h
  split at h
  · exact absurd h (by simp)
  · split at h
    · rename_i e2 hname
      injection h with h2
      rw [← h2]
      exact hname
    · exact absurd h (by simp)

theorem catchLeafErrors_ne_error (leafResult : Except GError GResponse)
    (e : GError) (h : catchLeafErrors leafResult = .error e) : False := by
  unfold catchLeafErrors at h
  split at h <;> exact absurd h (by simp)

/-- **C1 (amended).** When `tryTargetsRecursively` executes its body, the
only errors it can throw are a `RouterError` re-raised from a strategy, or
an error raised by its *own* top-level inherited-config merge phase (such
as the `TypeError` from spreading an absent
`defaultInputGuardrails`/`defaultOutputGuardrails`); every other error —
from strategies, from deeper recursion (including deeper merge phases), or
from the leaf path — is converted into the 500 failure response and
returned. -/
theorem tryTargetsRecursively_error_only_router_or_merge (env : ResolverEnv)
    (n : Nat) (t : Target) (inh : Option InheritedR) (e : GError)
    (he : tryTargetsRecursively env (n + 1) t inh = .error e) :
    e.name = "RouterError" ∨ mergePhase env.randId t inh = .error e := by
  rw [tryTargetsRecursively] at he
  split at he
  · rename_i e2 heq
    right
    injection he with h2
    rw [← h2]
    exact heq
  · rename_i merged cur heq
    split at he
    · exact Or.inl (catchStrategyErrors_error_router _ _ he)
    · exact absurd he (fun h => catchLeafErrors_ne_error _ _ h)

/-- Witness for **C1 (amended)**: a concrete run whose body throws (the
merge-phase spread of absent default guardrails), where the theorem applies
and the merge-phase disjunct holds. -/
theorem tryTargetsRecursively_error_only_router_or_merge_witness :
    (tryTargetsRecursively trivialResolverEnv 1 (Target.mk {} none) none =
        .error spreadUndefinedTypeError) ∧
      (spreadUndefinedTypeError.name = "RouterError" ∨
        mergePhase trivialResolverEnv.randId (Target.mk {} none) none =
          .error spreadUndefinedTypeError) :=
  ⟨rfl, tryTargetsRecursively_error_only_router_or_merge
    trivialResolverEnv 0 (Target.mk {} none) none spreadUndefinedTypeError rfl⟩

/-- **C1 counterexample.** The claim as stated is false: on the empty
target with the empty inherited config (neither carries
`defaultInputGuardrails`/`defaultOutputGuardrails`), the merge phase's
array spread throws a `TypeError` that escapes `tryTargetsRecursively`
instead of being converted into a 500 response — and it is not a
`RouterError`. -/
theorem tryTargetsRecursively_merge_error_escapes :
    tryTargetsRecursively trivialResolverEnv 1 (Target.mk {} none) none =
        .error spreadUndefinedTypeError ∧
      spreadUndefinedTypeError.name ≠ "RouterError" :=
  ⟨rfl, by decide⟩

/-- Unfolding equation for `cbFilterTargets`. -/
theorem cbFilterTargets_eq (cur : InheritedR) (t : Target) :
    cbFilterTargets cur t =
      if strTruthy cur.id then
        if (List.filter isHealthyTarget
            (List.mapIdx stampOriginalIndex (t.targets.getD []))).length ≠ 0
        then
          Target.mk t.data (some (List.filter isHealthyTarget
            (List.mapIdx stampOriginalIndex (t.targets.getD []))))
        else t
      else t := rfl

/-- Unfolding equation for `loadBalanceExecute`. -/
theorem loadBalanceExecute_eq (recurse : Target → Except GError GResponse)
    (rand : ℚ) (targets : List Target) :
    loadBalanceExecute recurse rand targets =
      if (assignDefaultWeights targets).foldl
          (fun sum c => sum + c.data.weight.getD 0) 0 = 0 then
        .error (plainError "Total weight cannot be zero for load balancing")
      else
        match selectTargetByWeight (assignDefaultWeights targets)
            (rand * (assignDefaultWeights targets).foldl
              (fun sum c => sum + c.data.weight.getD 0) 0) with
        | some c => recurse c
        | none =>
          match (assignDefaultWeights targets).getLast? with
          | some c => recurse c
          | none => .error undefinedPropertyTypeError := rfl

/-- One unfolding of the resolver when the merge phase succeeds. -/
theorem tryTargetsRecursively_ok_step (env : ResolverEnv) (n : Nat)
    (t : Target) (inh : Option InheritedR) (merged : Target)
    (cur : InheritedR)
    (hm : mergePhase env.randId t inh = .ok (merged, cur)) :
    tryTargetsRecursively env (n + 1) t inh =
      if strTruthy (t.data.strategy >>= StrategyCfg.mode) &&
          (cbFilterTargets cur merged).targets.isSome then
        catchStrategyErrors (dispatchStrategy
          (fun c => tryTargetsRecursively env n c (some cur))
          (t.data.strategy >>= StrategyCfg.mode)
          (env.randLB t)
          (env.condRoute ((cbFilterTargets cur merged).targets.getD []))
          ((cbFilterTargets cur merged).targets.getD []))
      else
        catchLeafErrors (leafFlow env cur (cbFilterTargets cur merged)) := by
  rw [tryTargetsRecursively, hm]

/-- A successful merge against a non-empty inherited record that carries
both default guardrail lists; the merge preserves the children. -/
theorem mergePhase_some_isSome_ok (randId : String) (t : Target)
    (i : InheritedR) (hdig : i.defaultInputGuardrails.isSome)
    (hdog : i.defaultOutputGuardrails.isSome) :
    ∃ pr, mergePhase randId t (some i) = .ok pr ∧
      pr.1.targets = t.targets := by
  obtain ⟨digL, hdigL⟩ := Option.isSome_iff_exists.mp hdig
  obtain ⟨dogL, hdogL⟩ := Option.isSome_iff_exists.mp hdog
  unfold mergePhase
  simp only [hdigL, hdogL]
  exact ⟨_, rfl, rfl⟩

theorem weight_of_mem_mapIdx (ts : List Target) (f : ℕ → Target → Target)
    (hf : ∀ i c, (f i c).data.weight = c.data.weight) :
    ∀ c2 ∈ List.mapIdx f ts, ∃ c ∈ ts, c2.data.weight = c.data.weight := by
  induction ts generalizing f with
  | nil =>
    intro c2 h2
    rw [List.mapIdx_nil] at h2
    cases h2
  | cons a l ih =>
    intro c2 h2
    rw [List.mapIdx_cons] at h2
    rcases List.mem_cons.mp h2 with h | h
    · exact ⟨a, List.mem_cons_self _ _, by rw [h]; exact hf 0 a⟩
    · obtain ⟨c, hc, he⟩ := ih (fun i c => f (i + 1) c)
        (fun i c => hf (i + 1) c) c2 h
      exact ⟨c, List.mem_cons_of_mem _ hc, he⟩

/-- The circuit-breaker filter keeps the children present, and each kept
child's weight equals some original child's weight. -/
theorem cbFilter_targets_weights (cur : InheritedR) (dd : TargetData)
    (ts : List Target) :
    ∃ ts2, (cbFilterTargets cur (Target.mk dd (some ts))).targets = some ts2 ∧
      ∀ c2 ∈ ts2, ∃ c ∈ ts, c2.data.weight = c.data.weight := by
  rw [cbFilterTargets_eq]
  by_cases hid : strTruthy cur.id = true
  · rw [if_pos hid]
    by_cases hlen : (List.filter isHealthyTarget
        (List.mapIdx stampOriginalIndex
          ((Target.mk dd (some ts)).targets.getD []))).length ≠ 0
    · rw [if_pos hlen]
      refine ⟨_, rfl, ?_⟩
      intro c2 h2
      have h3 := List.mem_of_mem_filter h2
      exact weight_of_mem_mapIdx ts stampOriginalIndex
        (fun i c => rfl) c2 h3
    · rw [if_neg hlen]
      exact ⟨ts, rfl, fun c2 h2 => ⟨c2, h2, rfl⟩⟩
  · rw [if_neg hid]
    exact ⟨ts, rfl, fun c2 h2 => ⟨c2, h2, rfl⟩⟩

/-- All-zero weights make the load-balance total zero. -/
theorem total_zero (ts : List Target)
    (hw : ∀ c ∈ ts, c.data.weight = some 0) :
    (assignDefaultWeights ts).foldl
      (fun sum c => sum + c.data.weight.getD 0) 0 = 0 := by
  suffices h : ∀ acc : ℚ, (assignDefaultWeights ts).foldl
      (fun sum c => sum + c.data.weight.getD 0) acc = acc by
    exact h 0
  induction ts with
  | nil => intro acc; rfl
  | cons a l ih =>
    intro acc
    have ha := hw a (List.mem_cons_self _ _)
    simp only [assignDefaultWeights, List.map_cons, List.foldl_cons]
    have hstep : (Target.mk
        { a.data with weight := some (a.data.weight.getD 1) }
        a.targets).data.weight.getD 0 = 0 := by
      rw [show (Target.mk
        { a.data with weight := some (a.data.weight.getD 1) }
        a.targets).data.weight = some (a.data.weight.getD 1) from rfl, ha]
      rfl
    rw [hstep, add_zero]
    have ih2 := ih (fun c hc => hw c (List.mem_cons_of_mem _ hc)) acc
    simpa [assignDefaultWeights] using ih2

/-- **C2 (amended).** For every load-balance strategy node all of whose
children have weight 0, the resolver returns a 500 Response with the
gateway-exception header set — but its JSON body is
`{status:"failure", message:"Something went wrong"}`: the strategy's
`Error('Total weight cannot be zero for load balancing')` is not a
`GatewayError`, so its message is not surfaced. -/
theorem loadbalance_all_zero_weights_500 (env : ResolverEnv) (n : Nat)
    (d : TargetData) (cs : List Target) (i : InheritedR)
    (hmode : d.strategy >>= StrategyCfg.mode = some "loadbalance")
    (hdig : i.defaultInputGuardrails.isSome)
    (hdog : i.defaultOutputGuardrails.isSome)
    (hw : ∀ c ∈ cs, c.data.weight = some 0) :
    tryTargetsRecursively env (n + 1) (Target.mk d (some cs)) (some i) =
        .ok (handleTargetRecursionError
          (plainError "Total weight cannot be zero for load balancing")) ∧
      (handleTargetRecursionError
        (plainError "Total weight cannot be zero for load balancing")).status
          = 500 ∧
      hGet (handleTargetRecursionError
        (plainError "Total weight cannot be zero for load balancing")).headers
          GATEWAY_EXCEPTION_HEADER = some "true" ∧
      (handleTargetRecursionError
        (plainError "Total weight cannot be zero for load balancing")).body =
        .obj [("status", .str "failure"),
              ("message", .str SOMETHING_WENT_WRONG)] := by
  refine ⟨?_, rfl, ?_, rfl⟩
  · obtain ⟨pr, hm, hpt⟩ := mergePhase_some_isSome_ok env.randId
      (Target.mk d (some cs)) i hdig hdog
    obtain ⟨merged, cur⟩ := pr
    cases merged with
    | mk md mts =>
      simp only [Target.targets] at hpt
      subst hpt
      obtain ⟨ts2, hts2, hmem⟩ := cbFilter_targets_weights cur md cs
      have hw2 : ∀ c2 ∈ ts2, c2.data.weight = some 0 := by
        intro c2 hc2
        obtain ⟨c, hc, he⟩ := hmem c2 hc2
        rw [he]
        exact hw c hc
      rw [tryTargetsRecursively_ok_step env n _ _ _ _ hm]
      have hcond : (strTruthy
          ((Target.mk d (some cs)).data.strategy >>= StrategyCfg.mode) &&
          (cbFilterTargets cur (Target.mk md (some cs))).targets.isSome)
          = true := by
        simp only [Target.data]
        rw [hmode, hts2]
        rfl
      rw [if_pos hcond]
      have hdisp : dispatchStrategy
          (fun c => tryTargetsRecursively env n c (some cur))
          ((Target.mk d (some cs)).data.strategy >>= StrategyCfg.mode)
          (env.randLB (Target.mk d (some cs)))
          (env.condRoute
            ((cbFilterTargets cur (Target.mk md (some cs))).targets.getD []))
          ((cbFilterTargets cur (Target.mk md (some cs))).targets.getD []) =
          loadBalanceExecute
            (fun c => tryTargetsRecursively env n c (some cur))
            (env.randLB (Target.mk d (some cs))) ts2 := by
        simp only [Target.data]
        rw [hmode, hts2]
        simp [dispatchStrategy]
      rw [hdisp, loadBalanceExecute_eq, if_pos (total_zero ts2 hw2)]
      rfl
  · rfl

/-- A weight-0 leaf child. -/
def zeroWeightChild : Target := Target.mk { weight := some 0 } none

/-- A `loadbalance` node whose two children both carry weight 0, with empty
default guardrail shorthand so the merge phase succeeds at the root. -/
def lbZeroTarget : Target :=
  Target.mk
    { strategy := some { mode := some "loadbalance", onStatusCodes := none },
      defaultInputGuardrails := some [],
      defaultOutputGuardrails := some [] }
    (some [zeroWeightChild, zeroWeightChild])

/-- The merged node data of `lbZeroTarget` after the merge phase. -/
def mergedLBZeroData : TargetData :=
  { strategy := some { mode := some "loadbalance", onStatusCodes := none },
    overrideParams := some [], retry := some [], cache := some [],
    defaultInputGuardrails := some [], defaultOutputGuardrails := some [] }

/-- The inherited record produced at `lbZeroTarget`. -/
def curLBZero : InheritedR :=
  { overrideParams := some [], retry := some [], cache := some [],
    defaultInputGuardrails := some [], defaultOutputGuardrails := some [] }

/-- **C2 counterexample.** On the concrete zero-weight load-balance tree the
resolver's 500 response body carries the message `"Something went wrong"`,
not `"No provider selected, please check the weights"` as claimed. -/
theorem loadbalance_zero_weight_message_counterexample :
    tryTargetsRecursively trivialResolverEnv 2 lbZeroTarget none =
        .ok { status := 500,
              headers := [("content-type", some DEFAULT_CONTENT_TYPE),
                          (GATEWAY_EXCEPTION_HEADER, some "true")],
              body := .obj [("status", .str "failure"),
                            ("message", .str SOMETHING_WENT_WRONG)] } ∧
      SOMETHING_WENT_WRONG ≠ NO_PROVIDER_SELECTED := by
  constructor
  · have hm : mergePhase trivialResolverEnv.randId lbZeroTarget none =
        .ok (Target.mk mergedLBZeroData
              (some [zeroWeightChild, zeroWeightChild]), curLBZero) := rfl
    rw [tryTargetsRecursively_ok_step trivialResolverEnv 1 lbZeroTarget none
      _ _ hm]
    rw [if_pos (show (strTruthy
        (lbZeroTarget.data.strategy >>= StrategyCfg.mode) &&
        (cbFilterTargets curLBZero (Target.mk mergedLBZeroData
          (some [zeroWeightChild, zeroWeightChild]))).targets.isSome) = true
      from rfl)]
    have hdisp : dispatchStrategy
        (fun c => tryTargetsRecursively trivialResolverEnv 1 c
          (some curLBZero))
        (lbZeroTarget.data.strategy >>= StrategyCfg.mode)
        (trivialResolverEnv.randLB lbZeroTarget)
        (trivialResolverEnv.condRoute
          ((cbFilterTargets curLBZero (Target.mk mergedLBZeroData
            (some [zeroWeightChild, zeroWeightChild]))).targets.getD []))
        ((cbFilterTargets curLBZero (Target.mk mergedLBZeroData
          (some [zeroWeightChild, zeroWeightChild]))).targets.getD []) =
        loadBalanceExecute
          (fun c => tryTargetsRecursively trivialResolverEnv 1 c
            (some curLBZero))
          (trivialResolverEnv.randLB lbZeroTarget)
          [zeroWeightChild, zeroWeightChild] := rfl
    rw [hdisp, loadBalanceExecute_eq]
    have htot : List.foldl (fun sum c => sum + c.data.weight.getD 0) 0
        (assignDefaultWeights [zeroWeightChild, zeroWeightChild]) = 0 := by
      show (0 : ℚ) + 0 + 0 = 0
      norm_num
    rw [if_pos htot]
    rfl
  · decide

/-- Witness for **C2 (amended)** at a concrete one-child zero-weight tree. -/
theorem loadbalance_all_zero_weights_500_witness :
    (∀ c ∈ [zeroWeightChild], c.data.weight = some 0) ∧
      tryTargetsRecursively trivialResolverEnv 1
          (Target.mk
            { strategy := some { mode := some "loadbalance", onStatusCodes := none } }
            (some [zeroWeightChild]))
          (some curLBZero) =
        .ok (handleTargetRecursionError
          (plainError "Total weight cannot be zero for load balancing")) := by
  have hw : ∀ c ∈ [zeroWeightChild], c.data.weight = some 0 := by
    intro c hc
    rw [List.mem_singleton] at hc
    subst hc
    rfl
  exact ⟨hw, (loadbalance_all_zero_weights_500 trivialResolverEnv 0
    { strategy := some { mode := some "loadbalance", onStatusCodes := none } }
    [zeroWeightChild] curLBZero rfl rfl rfl hw).1⟩

/-! ## Fallback (`src/handlers/strategies/fallbackStrategy.ts`) -/

/-- When no child's response stops the fallback loop, the loop's `response`
variable ends up holding the last child's response. -/
theorem fallbackGo_no_stop (recurse : Target → Except GError GResponse) :
    ∀ (ts : List Target) (rs : List GResponse)
    (hlen : rs.length = ts.length),
    (∀ i (hi : i < ts.length),
      recurse (ts.get ⟨i, hi⟩) = .ok (rs.get ⟨i, by omega⟩)) →
    (∀ j (hj : j < ts.length),
      shouldStopFallback (rs.get ⟨j, by omega⟩) (ts.get ⟨j, hj⟩).data.strategy
        = false) →
    fallbackGo recurse ts = .ok rs.getLast? := by
  intro ts
  induction ts with
  | nil =>
    intro rs hlen _ _
    have : rs = [] := List.eq_nil_of_length_eq_zero hlen
    subst this
    rfl
  | cons c rest ih =>
    intro rs hlen hrec hstop
    match rs, hlen with
    | r :: rrest, hlen =>
      have hlen2 : rrest.length = rest.length := by
        simpa using hlen
      have hr : recurse c = .ok r := hrec 0 (by simp)
      have hs : shouldStopFallback r c.data.strategy = false :=
        hstop 0 (by simp)
      have hrest : fallbackGo recurse rest = .ok rrest.getLast? := by
        apply ih rrest hlen2
        · intro i hi
          have := hrec (i + 1) (by simpa using Nat.succ_lt_succ hi)
          simpa using this
        · intro j hj
          have := hstop (j + 1) (by simpa using Nat.succ_lt_succ hj)
          simpa using this
      rw [fallbackGo]
      simp only [hr, hs, hrest, Bool.false_eq_true, if_false]
      cases rrest with
      | nil => rfl
      | cons x xs =>
        rw [List.getLast?_cons_cons]
        cases h2 : (x :: xs).getLast? with
        | none => simp at h2
        | some r2 => rfl

/-- The fallback loop stops at the first child whose response satisfies
`shouldStopFallback`, returning that child's response. -/
theorem fallbackGo_first_stop (recurse : Target → Except GError GResponse) :
    ∀ (ts : List Target) (rs : List GResponse)
    (hlen : rs.length = ts.length),
    (∀ i (hi : i < ts.length),
      recurse (ts.get ⟨i, hi⟩) = .ok (rs.get ⟨i, by omega⟩)) →
    ∀ j (hj : j < ts.length),
    shouldStopFallback (rs.get ⟨j, by omega⟩) (ts.get ⟨j, hj⟩).data.strategy
      = true →
    (∀ k (hk : k < j),
      shouldStopFallback (rs.get ⟨k, by omega⟩)
        (ts.get ⟨k, by omega⟩).data.strategy = false) →
    fallbackGo recurse ts = .ok (rs.get? j) := by
  intro ts
  induction ts with
  | nil =>
    intro rs hlen hrec j hj
    exact absurd hj (by simp)
  | cons c rest ih =>
    intro rs hlen hrec j hj hstopj hmin
    match rs, hlen with
    | r :: rrest, hlen =>
      have hlen2 : rrest.length = rest.length := by simpa using hlen
      have hr : recurse c = .ok r := hrec 0 (by simp)
      cases j with
      | zero =>
        have hs : shouldStopFallback r c.data.strategy = true := by
          simpa using hstopj
        rw [fallbackGo]
        simp only [hr, hs, if_true]
        rfl
      | succ j2 =>
        have hs : shouldStopFallback r c.data.strategy = false := by
          simpa using hmin 0 (Nat.succ_pos j2)
        have hj2 : j2 < rest.length := by simpa using hj
        have hrest : fallbackGo recurse rest = .ok (rrest.get? j2) := by
          apply ih rrest hlen2
          · intro i hi
            have := hrec (i + 1) (by simpa using Nat.succ_lt_succ hi)
            simpa using this
          · have := hstopj
            simpa using this
          · intro k hk
            have := hmin (k + 1) (Nat.succ_lt_succ hk)
            simpa using this
          · exact hj2
        rw [fallbackGo]
        simp only [hr, hs, Bool.false_eq_true, if_false, hrest]
        have hget : rrest.get? j2 = some (rrest.get ⟨j2, by omega⟩) :=
          List.get?_eq_get (by omega)
        rw [hget]
        simp [List.get?]

/-- **C5.** The fallback strategy tries the children in order and stops at
the first child whose response satisfies `shouldStopFallback` — that is,
(its `strategy.onStatusCodes` is an array and the status is not in it), or
(no `onStatusCodes` and the response is ok), or (the response carries
`x-portkey-gateway-exception: "true"`). The returned Response is that of
the last child tried, and with no children it fails with
`"All fallback attempts failed"`. -/
theorem fallbackExecute_behaviour (recurse : Target → Except GError GResponse)
    (ts : List Target) (rs : List GResponse)
    (hlen : rs.length = ts.length)
    (hrec : ∀ i (hi : i < ts.length),
      recurse (ts.get ⟨i, hi⟩) = .ok (rs.get ⟨i, by omega⟩)) :
    (ts = [] → fallbackExecute recurse ts =
      .error (plainError "All fallback attempts failed")) ∧
    (∀ j (hj : j < ts.length),
      shouldStopFallback (rs.get ⟨j, by omega⟩)
        (ts.get ⟨j, hj⟩).data.strategy = true →
      (∀ k (hk : k < j),
        shouldStopFallback (rs.get ⟨k, by omega⟩)
          (ts.get ⟨k, by omega⟩).data.strategy = false) →
      fallbackExecute recurse ts = .ok (rs.get ⟨j, by omega⟩)) ∧
    ((∀ j (hj : j < ts.length),
      shouldStopFallback (rs.get ⟨j, by omega⟩)
        (ts.get ⟨j, hj⟩).data.strategy = false) →
      ∀ hne : rs ≠ [],
      fallbackExecute recurse ts = .ok (rs.getLast hne)) := by
  refine ⟨?_, ?_, ?_⟩
  · intro he
    subst he
    have : rs = [] := List.eq_nil_of_length_eq_zero hlen
    subst this
    rfl
  · intro j hj hstopj hmin
    have hgo := fallbackGo_first_stop recurse ts rs hlen hrec j hj hstopj hmin
    unfold fallbackExecute
    rw [hgo]
    rw [List.get?_eq_get (by omega)]
  · intro hnostop hne
    have hgo := fallbackGo_no_stop recurse ts rs hlen hrec hnostop
    unfold fallbackExecute
    rw [hgo, List.getLast?_eq_getLast rs hne]

/-- Children and responses for the fallback witness run: the first child
answers 500 (not stopping: no `onStatusCodes` and not ok), the second 200
(stopping). -/
def fbChildA : Target := Target.mk { id := some "a" } none
def fbChildB : Target := Target.mk { id := some "b" } none
def fbR500 : GResponse := { status := 500, headers := [], body := .null }
def fbR200 : GResponse := { status := 200, headers := [], body := .null }
def fbRecurse (c : Target) : Except GError GResponse :=
  if c.data.id = some "a" then .ok fbR500 else .ok fbR200

/-- Witness for **C5** on the concrete two-child run stopping at index 1. -/
theorem fallbackExecute_behaviour_witness :
    (shouldStopFallback ([fbR500, fbR200].get ⟨1, by decide⟩)
        (([fbChildA, fbChildB].get ⟨1, by decide⟩)).data.strategy = true) ∧
      fallbackExecute fbRecurse [fbChildA, fbChildB] =
        .ok ([fbR500, fbR200].get ⟨1, by decide⟩) := by
  have hrec : ∀ i (hi : i < ([fbChildA, fbChildB] : List Target).length),
      fbRecurse ([fbChildA, fbChildB].get ⟨i, hi⟩) =
        .ok ([fbR500, fbR200].get ⟨i, by simpa using hi⟩) := by
    intro i hi
    rcases i with _ | _ | i
    · rfl
    · rfl
    · simp at hi
      omega
  have hstop : shouldStopFallback ([fbR500, fbR200].get ⟨1, by decide⟩)
      (([fbChildA, fbChildB].get ⟨1, by decide⟩)).data.strategy = true := rfl
  have hmin : ∀ k (hk : k < 1),
      shouldStopFallback ([fbR500, fbR200].get ⟨k, by simp; omega⟩)
        (([fbChildA, fbChildB].get ⟨k, by simp; omega⟩)).data.strategy
        = false := by
    intro k hk
    rcases k with _ | k
    · rfl
    · omega
  exact ⟨hstop, (fallbackExecute_behaviour fbRecurse [fbChildA, fbChildB]
    [fbR500, fbR200] rfl hrec).2.1 1 (by decide) hstop hmin⟩

/-! ## Circuit-breaker filtering (claim C7) -/

theorem isHealthyTarget_iff (c : Target) :
    isHealthyTarget c = true ↔ c.data.isOpen ≠ some true := by
  unfold isHealthyTarget
  cases h : c.data.isOpen with
  | none => simp
  | some b => cases b <;> simp

theorem filter_stamped_length_ne_zero_iff (ts : List Target) :
    ∀ (f : ℕ → Target → Target),
    (∀ i c, (f i c).data.isOpen = c.data.isOpen) →
    (((List.filter isHealthyTarget (List.mapIdx f ts)).length ≠ 0) ↔
      (∃ c ∈ ts, c.data.isOpen ≠ some true)) := by
  induction ts with
  | nil =>
    intro f hf
    simp [List.mapIdx_nil]
  | cons a l ih =>
    intro f hf
    rw [List.mapIdx_cons]
    cases h : isHealthyTarget (f 0 a) with
    | true =>
      have ha : a.data.isOpen ≠ some true := by
        rw [← hf 0 a]
        exact (isHealthyTarget_iff (f 0 a)).mp h
      simp only [List.filter_cons, h, if_true]
      constructor
      · intro _
        exact ⟨a, List.mem_cons_self _ _, ha⟩
      · intro _
        simp
    | false =>
      have ha : ¬ (a.data.isOpen ≠ some true) := by
        intro hc
        have := (isHealthyTarget_iff (f 0 a)).mpr (by rw [hf 0 a]; exact hc)
        rw [h] at this
        exact Bool.false_ne_true this
      simp only [List.filter_cons, h, Bool.false_eq_true, if_false]
      rw [ih (fun i c => f (i + 1) c) (fun i c => hf (i + 1) c)]
      constructor
      · intro ⟨c, hc, hopen⟩
        exact ⟨c, List.mem_cons_of_mem _ hc, hopen⟩
      · intro ⟨c, hc, hopen⟩
        rcases List.mem_cons.mp hc with hch | hcl
        · subst hch
          exact absurd hopen ha
        · exact ⟨c, hcl, hopen⟩

/-- **C7.** For every node reached with an inherited circuit-breaker id, the
resolver filters the node's children to those with `isOpen` not equal to
`true` (stamping each kept child with its original index) if and only if at
least one such healthy child exists; when every child is open, the full
original children list is kept unchanged. -/
theorem cbFilterTargets_spec (cur : InheritedR) (d : TargetData)
    (ts : List Target) (hid : strTruthy cur.id = true) :
    ((∃ c ∈ ts, c.data.isOpen ≠ some true) →
      cbFilterTargets cur (Target.mk d (some ts)) =
        Target.mk d (some (List.filter isHealthyTarget
          (List.mapIdx stampOriginalIndex ts)))) ∧
      ((∀ c ∈ ts, c.data.isOpen = some true) →
        cbFilterTargets cur (Target.mk d (some ts)) =
          Target.mk d (some ts)) := by
  have hiff := filter_stamped_length_ne_zero_iff ts stampOriginalIndex
    (fun i c => rfl)
  constructor
  · intro hex
    rw [cbFilterTargets_eq, if_pos hid, if_pos]
    · rfl
    · exact hiff.mpr hex
  · intro hall
    rw [cbFilterTargets_eq, if_pos hid, if_neg]
    intro hcontra
    obtain ⟨c, hc, hopen⟩ := hiff.mp hcontra
    exact hopen (hall c hc)

/-- Witness targets for **C7**: one open child, one healthy child. -/
def cbOpenChild : Target := Target.mk { isOpen := some true } none
def cbHealthyChild : Target := Target.mk { id := some "h" } none
def cbCur : InheritedR := { id := some "cb1" }

/-- Witness for **C7**: with the circuit-breaker id set and one healthy
child, the filter keeps exactly the healthy children (stamped). -/
theorem cbFilterTargets_spec_witness :
    (strTruthy cbCur.id = true) ∧
      (∃ c ∈ [cbOpenChild, cbHealthyChild], c.data.isOpen ≠ some true) ∧
      cbFilterTargets cbCur
          (Target.mk {} (some [cbOpenChild, cbHealthyChild])) =
        Target.mk {} (some (List.filter isHealthyTarget
          (List.mapIdx stampOriginalIndex [cbOpenChild, cbHealthyChild]))) := by
  have hid : strTruthy cbCur.id = true := rfl
  have hex : ∃ c ∈ [cbOpenChild, cbHealthyChild],
      c.data.isOpen ≠ some true := by
    refine ⟨cbHealthyChild, by simp, ?_⟩
    intro hc
    exact Option.noConfusion hc
  exact ⟨hid, hex,
    (cbFilterTargets_spec cbCur {} [cbOpenChild, cbHealthyChild] hid).1 hex⟩

/-! ## Inherited-config merge invariants (claim C6) -/

theorem fhMerge_snd_shape (inh : Option InheritedR) (d : TargetData) :
    ∃ v, (fhMerge inh d).2 = { d with forwardHeaders := v } := by
  unfold fhMerge
  rcases h : d.forwardHeaders with _ | l
  · simp only [h]
    rcases h2 : inhF inh InheritedR.forwardHeaders with _ | l2 <;>
      simp only [h2] <;> exact ⟨_, rfl⟩
  · simp only [h]
    exact ⟨_, rfl⟩

theorem chMerge_snd_shape (inh : Option InheritedR) (d : TargetData) :
    ∃ v, (chMerge inh d).2 = { d with customHost := v } := by
  unfold chMerge
  split_ifs <;> exact ⟨_, rfl⟩

theorem rtMerge_snd_shape (inh : Option InheritedR) (d : TargetData) :
    ∃ v, (rtMerge inh d).2 = { d with requestTimeout := v } := by
  unfold rtMerge
  split_ifs <;> exact ⟨_, rfl⟩

theorem arhMerge_snd_shape (inh : Option InheritedR) (d : TargetData) :
    ∃ v, (arhMerge inh d).2 = { d with afterRequestHooks := v } := by
  unfold arhMerge
  rcases h : d.afterRequestHooks with _ | l
  · simp only [h]
    rcases h2 : inhF inh InheritedR.afterRequestHooks with _ | l2 <;>
      simp only [h2] <;> exact ⟨_, rfl⟩
  · simp only [h]
    exact ⟨_, rfl⟩

theorem fhMerge_fst (inh : Option InheritedR) (d : TargetData) :
    (fhMerge inh d).1 =
      if d.forwardHeaders.isSome then d.forwardHeaders
      else inhF inh InheritedR.forwardHeaders := by
  unfold fhMerge
  rcases h : d.forwardHeaders with _ | l
  · simp only [h]
    rcases h2 : inhF inh InheritedR.forwardHeaders with _ | l2 <;>
      simp [h2]
  · simp [h]

theorem arhMerge_fst (inh : Option InheritedR) (d : TargetData) :
    (arhMerge inh d).1 =
      if d.afterRequestHooks.isSome then d.afterRequestHooks
      else inhF inh InheritedR.afterRequestHooks := by
  unfold arhMerge
  rcases h : d.afterRequestHooks with _ | l
  · simp only [h]
    rcases h2 : inhF inh InheritedR.afterRequestHooks with _ | l2 <;>
      simp [h2]
  · simp [h]

theorem brhMerge_fst (inh : Option InheritedR) (d : TargetData) :
    (brhMerge inh d).1 =
      if d.beforeRequestHooks.isSome then d.beforeRequestHooks
      else inhF inh InheritedR.beforeRequestHooks := by
  unfold brhMerge
  rcases h : d.beforeRequestHooks with _ | l
  · simp only [h]
    rcases h2 : inhF inh InheritedR.beforeRequestHooks with _ | l2 <;>
      simp [h2]
  · simp [h]

/-- With no shorthand guardrails or mutators on the node, the
shorthand-normalization step changes nothing. -/
theorem appendShorthandHooks_id (randId : String) (d : TargetData)
    (h1 : d.inputGuardrails = none) (h2 : d.outputGuardrails = none)
    (h3 : d.inputMutators = none) (h4 : d.outputMutators = none) :
    appendShorthandHooks randId d = d := by
  unfold appendShorthandHooks
  simp only [h1, h2, h3, h4]

/-- Closed form of a successful merge against a non-empty inherited record:
the produced inherited record, field by field, in terms of the merge
steps. -/
theorem mergePhase_some_eq (randId : String) (t : Target) (i : InheritedR)
    (digL dogL : List Json) (hdig : i.defaultInputGuardrails = some digL)
    (hdog : i.defaultOutputGuardrails = some dogL) :
    ∃ t2, mergePhase randId t (some i) = .ok (t2,
      { id := if strTruthy (inhF (some i) InheritedR.id) then
            inhF (some i) InheritedR.id
          else t.data.id,
        overrideParams := some (jSpread
          ((inhF (some i) InheritedR.overrideParams).getD [])
          (t.data.overrideParams.getD [])),
        retry := some (match t.data.retry with
          | some r => r
          | none => (inhF (some i) InheritedR.retry).getD []),
        cache := some (match t.data.cache with
          | some c => c
          | none => (inhF (some i) InheritedR.cache).getD []),
        requestTimeout :=
          (rtMerge (some i) (chMerge (some i) (fhMerge (some i) t.data).2).2).1,
        defaultInputGuardrails := some digL,
        defaultOutputGuardrails := some dogL,
        strictOpenAiCompliance := (match t.data.strictOpenAiCompliance with
          | some b => some b
          | none => inhF (some i) InheritedR.strictOpenAiCompliance),
        forwardHeaders := (fhMerge (some i) t.data).1,
        customHost := (chMerge (some i) (fhMerge (some i) t.data).2).1,
        afterRequestHooks := (arhMerge (some i) (appendShorthandHooks randId
          (rtMerge (some i)
            (chMerge (some i) (fhMerge (some i) t.data).2).2).2)).1,
        beforeRequestHooks := (brhMerge (some i) (arhMerge (some i)
          (appendShorthandHooks randId
            (rtMerge (some i)
              (chMerge (some i) (fhMerge (some i) t.data).2).2).2)).2).1 }) := by
  unfold mergePhase
  simp only [hdig, hdog]
  exact ⟨_, rfl⟩

theorem fhMerge_snd_proj (inh : Option InheritedR) (d : TargetData) :
    ((fhMerge inh d).2.inputGuardrails = d.inputGuardrails) ∧
      ((fhMerge inh d).2.outputGuardrails = d.outputGuardrails) ∧
      ((fhMerge inh d).2.inputMutators = d.inputMutators) ∧
      ((fhMerge inh d).2.outputMutators = d.outputMutators) ∧
      ((fhMerge inh d).2.beforeRequestHooks = d.beforeRequestHooks) ∧
      ((fhMerge inh d).2.afterRequestHooks = d.afterRequestHooks) := by
  obtain ⟨v, e⟩ := fhMerge_snd_shape inh d
  rw [e]
  exact ⟨rfl, rfl, rfl, rfl, rfl, rfl⟩

theorem chMerge_snd_proj (inh : Option InheritedR) (d : TargetData) :
    ((chMerge inh d).2.inputGuardrails = d.inputGuardrails) ∧
      ((chMerge inh d).2.outputGuardrails = d.outputGuardrails) ∧
      ((chMerge inh d).2.inputMutators = d.inputMutators) ∧
      ((chMerge inh d).2.outputMutators = d.outputMutators) ∧
      ((chMerge inh d).2.beforeRequestHooks = d.beforeRequestHooks) ∧
      ((chMerge inh d).2.afterRequestHooks = d.afterRequestHooks) := by
  obtain ⟨v, e⟩ := chMerge_snd_shape inh d
  rw [e]
  exact ⟨rfl, rfl, rfl, rfl, rfl, rfl⟩

theorem rtMerge_snd_proj (inh : Option InheritedR) (d : TargetData) :
    ((rtMerge inh d).2.inputGuardrails = d.inputGuardrails) ∧
      ((rtMerge inh d).2.outputGuardrails = d.outputGuardrails) ∧
      ((rtMerge inh d).2.inputMutators = d.inputMutators) ∧
      ((rtMerge inh d).2.outputMutators = d.outputMutators) ∧
      ((rtMerge inh d).2.beforeRequestHooks = d.beforeRequestHooks) ∧
      ((rtMerge inh d).2.afterRequestHooks = d.afterRequestHooks) := by
  obtain ⟨v, e⟩ := rtMerge_snd_shape inh d
  rw [e]
  exact ⟨rfl, rfl, rfl, rfl, rfl, rfl⟩

theorem arhMerge_snd_brh (inh : Option InheritedR) (d : TargetData) :
    (arhMerge inh d).2.beforeRequestHooks = d.beforeRequestHooks := by
  obtain ⟨v, e⟩ := arhMerge_snd_shape inh d
  rw [e]

/-- **C6.** The inherited-config merge prefers the current node:
`overrideParams` is the shallow union with current-node keys winning;
`retry` and `cache` are taken wholly from the current node when it sets
them and wholly from the inherited record otherwise; and the list-valued
fields (`forwardHeaders`, `beforeRequestHooks`, `afterRequestHooks`)
replace entirely when present on the current node, otherwise inherit.
(The node carries no guardrail/mutator shorthand, which would first be
appended into its hook lists.) -/
theorem mergePhase_prefers_current (randId : String) (t : Target)
    (i : InheritedR) (t' : Target) (cur : InheritedR)
    (hg1 : t.data.inputGuardrails = none)
    (hg2 : t.data.outputGuardrails = none)
    (hg3 : t.data.inputMutators = none)
    (hg4 : t.data.outputMutators = none)
    (hok : mergePhase randId t (some i) = .ok (t', cur)) :
    (∀ k, jGet (cur.overrideParams.getD []) k =
      ((jGet (t.data.overrideParams.getD []) k).orElse
        (fun _ => jGet (i.overrideParams.getD []) k))) ∧
      cur.retry = some (t.data.retry.getD (i.retry.getD [])) ∧
      cur.cache = some (t.data.cache.getD (i.cache.getD [])) ∧
      cur.forwardHeaders = (if t.data.forwardHeaders.isSome then
        t.data.forwardHeaders else i.forwardHeaders) ∧
      cur.beforeRequestHooks = (if t.data.beforeRequestHooks.isSome then
        t.data.beforeRequestHooks else i.beforeRequestHooks) ∧
      cur.afterRequestHooks = (if t.data.afterRequestHooks.isSome then
        t.data.afterRequestHooks else i.afterRequestHooks) := by
  rcases hdig : i.defaultInputGuardrails with _ | digL
  · simp [mergePhase, hdig] at hok
  · rcases hdog : i.defaultOutputGuardrails with _ | dogL
    · simp [mergePhase, hdig, hdog] at hok
    · obtain ⟨t2, heq⟩ := mergePhase_some_eq randId t i digL dogL hdig hdog
      rw [heq] at hok
      injection hok with hp
      injection hp with hA hB
      subst hB
      refine ⟨?_, ?_, ?_, ?_, ?_, ?_⟩
      · intro k
        exact jGet_jSpread _ _ k
      · rcases h : t.data.retry with _ | r <;> simp [h, inhF]
      · rcases h : t.data.cache with _ | c <;> simp [h, inhF]
      · rw [fhMerge_fst]
        rfl
      · have p1 := fhMerge_snd_proj (some i) t.data
        have p2 := chMerge_snd_proj (some i) (fhMerge (some i) t.data).2
        have p3 := rtMerge_snd_proj (some i)
          (chMerge (some i) (fhMerge (some i) t.data).2).2
        have hIG : (rtMerge (some i)
            (chMerge (some i) (fhMerge (some i) t.data).2).2).2.inputGuardrails
            = none := by
          rw [p3.1, p2.1, p1.1]
          exact hg1
        have hOG : (rtMerge (some i)
            (chMerge (some i) (fhMerge (some i) t.data).2).2).2.outputGuardrails
            = none := by
          rw [p3.2.1, p2.2.1, p1.2.1]
          exact hg2
        have hIM : (rtMerge (some i)
            (chMerge (some i) (fhMerge (some i) t.data).2).2).2.inputMutators
            = none := by
          rw [p3.2.2.1, p2.2.2.1, p1.2.2.1]
          exact hg3
        have hOM : (rtMerge (some i)
            (chMerge (some i) (fhMerge (some i) t.data).2).2).2.outputMutators
            = none := by
          rw [p3.2.2.2.1, p2.2.2.2.1, p1.2.2.2.1]
          exact hg4
        have hBRH : (rtMerge (some i)
            (chMerge (some i)
              (fhMerge (some i) t.data).2).2).2.beforeRequestHooks
            = t.data.beforeRequestHooks := by
          rw [p3.2.2.2.2.1, p2.2.2.2.2.1, p1.2.2.2.2.1]
        rw [appendShorthandHooks_id _ _ hIG hOG hIM hOM]
        rw [brhMerge_fst, arhMerge_snd_brh, hBRH]
        rfl
      · have p1 := fhMerge_snd_proj (some i) t.data
        have p2 := chMerge_snd_proj (some i) (fhMerge (some i) t.data).2
        have p3 := rtMerge_snd_proj (some i)
          (chMerge (some i) (fhMerge (some i) t.data).2).2
        have hIG : (rtMerge (some i)
            (chMerge (some i) (fhMerge (some i) t.data).2).2).2.inputGuardrails
            = none := by
          rw [p3.1, p2.1, p1.1]
          exact hg1
        have hOG : (rtMerge (some i)
            (chMerge (some i) (fhMerge (some i) t.data).2).2).2.outputGuardrails
            = none := by
          rw [p3.2.1, p2.2.1, p1.2.1]
          exact hg2
        have hIM : (rtMerge (some i)
            (chMerge (some i) (fhMerge (some i) t.data).2).2).2.inputMutators
            = none := by
          rw [p3.2.2.1, p2.2.2.1, p1.2.2.1]
          exact hg3
        have hOM : (rtMerge (some i)
            (chMerge (some i) (fhMerge (some i) t.data).2).2).2.outputMutators
            = none := by
          rw [p3.2.2.2.1, p2.2.2.2.1, p1.2.2.2.1]
          exact hg4
        have hARH : (rtMerge (some i)
            (chMerge (some i)
              (fhMerge (some i) t.data).2).2).2.afterRequestHooks
            = t.data.afterRequestHooks := by
          rw [p3.2.2.2.2.2, p2.2.2.2.2.2, p1.2.2.2.2.2]
        rw [appendShorthandHooks_id _ _ hIG hOG hIM hOM]
        rw [arhMerge_fst, hARH]
        rfl

/-- Concrete merge inputs for the C6 witness: a node setting `retry`
against an inherited record that sets nothing else of interest. -/
def c6Target : Target :=
  Target.mk { retry := some [("attempts", Json.num 1)] } none
def c6Inh : InheritedR :=
  { defaultInputGuardrails := some [], defaultOutputGuardrails := some [] }
def c6Merged : Target :=
  Target.mk
    { retry := some [("attempts", Json.num 1)], overrideParams := some [],
      cache := some [], defaultInputGuardrails := some [],
      defaultOutputGuardrails := some [] } none
def c6Cur : InheritedR :=
  { overrideParams := some [], retry := some [("attempts", Json.num 1)],
    cache := some [], defaultInputGuardrails := some [],
    defaultOutputGuardrails := some [] }

/-- Witness for **C6** on the concrete merge: the node's whole `retry`
object wins. -/
theorem mergePhase_prefers_current_witness :
    (mergePhase "abc12" c6Target (some c6Inh) = .ok (c6Merged, c6Cur)) ∧
      c6Cur.retry = some (c6Target.data.retry.getD (c6Inh.retry.getD [])) :=
  ⟨rfl, (mergePhase_prefers_current "abc12" c6Target c6Inh c6Merged c6Cur
    rfl rfl rfl rfl rfl).2.1⟩

/-! ## After-request hook loop (`recursiveAfterRequestHookHandler`,
`handlerUtils.ts` lines 463–577)

One invocation performs: a `retryRequest` call (returning an attempt count,
possibly undefined, and a `skip` flag), response mapping, and the
after-request hooks producing `arhResponse`. These external effects are the
`engine` oracle, indexed by the invocation number; `arhStatus` is the
status of the hook-mapped response. The function returns the final
`retryCount` and the final hook-mapped response status. -/

structure RetryCfg where
  attempts : Nat
  onStatusCodes : Option (List Nat)
deriving Repr, DecidableEq

structure EngineStep where
  attempt : Option Nat
  skip : Bool
  arhStatus : Nat
deriving Repr, DecidableEq

/-- `retry?.onStatusCodes?.includes(arhResponse.status)`. -/
def isRetriableStatus (retry : Option RetryCfg) (status : Nat) : Bool :=
  match retry with
  | some rc =>
    match rc.onStatusCodes with
    | some cs => cs.contains status
    | none => false
  | none => false

def recursiveAfterRequestHookHandler (engine : Nat → EngineStep)
    (retry : Option RetryCfg) (callIdx : Nat) (retryAttemptsMade : Nat) :
    Int × Nat :=
  let step := engine callIdx
  let retryCount := step.attempt
  let remainingRetryCount : Int :=
    (((retry.map RetryCfg.attempts).getD 0 : Nat) : Int) -
      ((retryCount.getD 0 : Nat) : Int) - (retryAttemptsMade : Int)
  let isRetriableStatusCode := isRetriableStatus retry step.arhStatus
  if h : 0 < remainingRetryCount ∧ step.skip = false ∧
      isRetriableStatusCode = true then
    recursiveAfterRequestHookHandler engine retry (callIdx + 1)
      (retryCount.getD 0 + 1 + retryAttemptsMade)
  else
    let lastAttempt0 : Int :=
      ((retryCount.getD 0 : Nat) : Int) + (retryAttemptsMade : Int)
    let lastAttempt : Int :=
      if (lastAttempt0 = (((retry.map RetryCfg.attempts).getD 0 : Nat) : Int) ∧
          isRetriableStatusCode = true) ∨ step.skip = true
      then -1 else lastAttempt0
    (lastAttempt, step.arhStatus)
termination_by (retry.map RetryCfg.attempts).getD 0 + 1 - retryAttemptsMade
decreasing_by
  simp_wf
  omega

/-- **C4 (amended).** The after-request hook loop recurses exactly when
`remaining = retry.attempts - attempt - attemptsAlreadyMade` is positive,
retry was not skipped, and the hook-mapped status is in
`retry.onStatusCodes`, passing `attemptsMade = attempt + 1 +
attemptsAlreadyMade` to the recursive call; otherwise it terminates with
`retryCount = -1` when retry was skipped **or the summed attempt count
equals `retry.attempts` with the status still retriable** — when the summed
count overshoots `retry.attempts`, the sum itself is returned even though
the status is still retriable — and the summed attempt count otherwise. -/
theorem recursiveAfterRequestHookHandler_spec (engine : Nat → EngineStep)
    (retry : Option RetryCfg) (callIdx retryAttemptsMade : Nat) :
    (0 < (((retry.map RetryCfg.attempts).getD 0 : Nat) : Int) -
          (((engine callIdx).attempt.getD 0 : Nat) : Int) -
          (retryAttemptsMade : Int) ∧
        (engine callIdx).skip = false ∧
        isRetriableStatus retry (engine callIdx).arhStatus = true →
      recursiveAfterRequestHookHandler engine retry callIdx
          retryAttemptsMade =
        recursiveAfterRequestHookHandler engine retry (callIdx + 1)
          ((engine callIdx).attempt.getD 0 + 1 + retryAttemptsMade)) ∧
      (¬ (0 < (((retry.map RetryCfg.attempts).getD 0 : Nat) : Int) -
            (((engine callIdx).attempt.getD 0 : Nat) : Int) -
            (retryAttemptsMade : Int) ∧
          (engine callIdx).skip = false ∧
          isRetriableStatus retry (engine callIdx).arhStatus = true) →
        recursiveAfterRequestHookHandler engine retry callIdx
            retryAttemptsMade =
          (if ((((engine callIdx).attempt.getD 0 : Nat) : Int) +
                (retryAttemptsMade : Int) =
                (((retry.map RetryCfg.attempts).getD 0 : Nat) : Int) ∧
              isRetriableStatus retry (engine callIdx).arhStatus = true) ∨
              (engine callIdx).skip = true
           then -1
           else (((engine callIdx).attempt.getD 0 : Nat) : Int) +
             (retryAttemptsMade : Int),
           (engine callIdx).arhStatus)) := by
  constructor
  · intro h
    rw [recursiveAfterRequestHookHandler]
    rw [dif_pos h]
  · intro h
    rw [recursiveAfterRequestHookHandler]
    rw [dif_neg h]

/-- The engine oracle for the C4 runs: first call does no engine-level
retries (attempt 0) and yields a retriable 503 after hooks; second call
exhausts the full engine budget (attempt 2), still 503. -/
def engC4 : Nat → EngineStep := fun n =>
  if n = 0 then { attempt := some 0, skip := false, arhStatus := 503 }
  else { attempt := some 2, skip := false, arhStatus := 503 }

def retryC4 : Option RetryCfg :=
  some { attempts := 2, onStatusCodes := some [503] }

/-- Witness for **C4 (amended)**: on the concrete first call the recursion
conditions hold and the loop recurses with
`attemptsMade = attempt + 1 + attemptsAlreadyMade = 1`. -/
theorem recursiveAfterRequestHookHandler_spec_witness :
    (0 < ((((retryC4).map RetryCfg.attempts).getD 0 : Nat) : Int) -
        (((engC4 0).attempt.getD 0 : Nat) : Int) - ((0 : Nat) : Int) ∧
      (engC4 0).skip = false ∧
      isRetriableStatus retryC4 ((engC4 0).arhStatus) = true) ∧
      recursiveAfterRequestHookHandler engC4 retryC4 0 0 =
        recursiveAfterRequestHookHandler engC4 retryC4 1
          ((engC4 0).attempt.getD 0 + 1 + 0) := by
  refine ⟨⟨by decide, rfl, by decide⟩, ?_⟩
  exact (recursiveAfterRequestHookHandler_spec engC4 retryC4 0 0).1
    ⟨by decide, rfl, by decide⟩

/-- **C4 counterexample.** On a run where the first invocation's engine
attempt is 0 and the second invocation's engine attempt is 2 (all statuses
503, retriable, never skipped, `retry.attempts = 2`), the loop terminates
with `retryCount = 3` — the summed attempt count overshoots
`retry.attempts` — even though the final status is still retriable and
retry was not skipped, where the claim requires `-1`. -/
theorem rahh_overshoot_counterexample :
    recursiveAfterRequestHookHandler engC4 retryC4 0 0 = (3, 503) ∧
      isRetriableStatus retryC4 503 = true ∧
      (engC4 1).skip = false ∧
      (3 : Int) ≠ -1 := by
  refine ⟨?_, by decide, rfl, by decide⟩
  rw [recursiveAfterRequestHookHandler]
  rw [dif_pos ⟨by decide, by decide, by decide⟩]
  rw [recursiveAfterRequestHookHandler]
  rw [dif_neg (by decide)]
  decide
